import Mathlib

/-!
Formal model of the SMS assistant's message-to-action pipeline, embedded from
the TypeScript sources: the routing dispatcher (intent-router.service.ts),
the permission guard (permission.service.ts), list access
(list.service.ts), the trip/location engine (location.service.ts), the
formatters (utils/formatters.ts) and the webhook controller
(sms.controller.ts).  The persistent store is modelled as an in-memory
relational state `DB`; external collaborators (geocoding, routing,
classification, the SMS channel) are oracle functions in `Env`.  A global
`storageUp` flag models repository failure: when it is false every
repository call raises, which each service's try/catch turns into its
documented fallback value.  Timestamps are integer milliseconds; creation
order is modelled by the monotone id counter `nextId`.
-/

/-- ASCII lower-casing of one character (the `toLowerCase` /
`mode: 'insensitive'` operations of the sources, restricted to ASCII). -/
def lowerChar (c : Char) : Char :=
  if 65 ≤ c.toNat ∧ c.toNat ≤ 90 then Char.ofNat (c.toNat + 32) else c

/-- Character-wise lower-casing of a string. -/
def lowerStr (s : String) : String := String.mk (s.data.map lowerChar)

/-- Decimal-digit test, the `\d` class of `replace(/\D/g, '')`. -/
def isDigitCh (c : Char) : Bool := 48 ≤ c.toNat && c.toNat ≤ 57

/-- Whitespace test for `String.prototype.trim`. -/
def isWsCh (c : Char) : Bool := c == ' ' || c == '\t' || c == '\n' || c == '\r'

/-- JavaScript `String.prototype.trim`. -/
def jsTrim (s : String) : String :=
  String.mk (((s.data.dropWhile isWsCh).reverse.dropWhile isWsCh).reverse)

/-- Does the second list start with the first? -/
def headMatch : List Char → List Char → Bool
  | [], _ => true
  | _ :: _, [] => false
  | a :: as, b :: bs => a == b && headMatch as bs

/-- Substring occurrence test on character lists. -/
def containsSub (needle : List Char) : List Char → Bool
  | [] => needle.isEmpty
  | b :: bs => headMatch needle (b :: bs) || containsSub needle bs

/-- The `contains: q, mode: 'insensitive'` filter of the Prisma queries:
case-insensitive substring of `q` inside `haystack`. -/
def ciContains (haystack q : String) : Bool :=
  containsSub (lowerStr q).data (lowerStr haystack).data

/-- formatPhoneNumber of utils/formatters.ts: strip non-digits, normalise to
E.164 assuming US numbers for 10-digit input. -/
def formatPhoneNumber (phone : String) : String :=
  let digits := phone.data.filter isDigitCh
  if !headMatch ['1'] digits && digits.length == 10 then
    String.mk ('+' :: '1' :: digits)
  else if digits.length == 11 && headMatch ['1'] digits then
    String.mk ('+' :: digits)
  else if headMatch ['+'] digits then String.mk digits
  else String.mk ('+' :: digits)

/-- The SMS_CHAR_LIMIT constant of utils/formatters.ts. -/
def smsCharLimit : Nat := 1600

/-- truncateForSms of utils/formatters.ts at its default limit (the only
call pattern in the sources): hard cut plus ellipsis beyond the limit. -/
def truncateForSms (text : String) : String :=
  if text.length ≤ smsCharLimit then text
  else String.mk (text.data.take (smsCharLimit - 3)) ++ "..."

/-- JavaScript truthiness of an optional string: `undefined`/`null` and the
empty string are falsy. -/
def strFalsy : Option String → Bool
  | none => true
  | some s => s == ""

/-- The string carried by an optional string, empty for `none`. -/
def optStr : Option String → String
  | none => ""
  | some s => s

/-- The `a || b` idiom of the sources on an optional string. -/
def jsOrStr (a : Option String) (b : String) : String :=
  if strFalsy a then b else optStr a

/-- `Array.prototype.join` with a separator. -/
def joinSep (sep : String) : List String → String
  | [] => ""
  | [x] => x
  | x :: xs => x ++ sep ++ joinSep sep xs

/-- formatDistance of utils/formatters.ts.  The source computes
`meters / 1609.34` in floating point and renders with `toFixed(1)` /
`Math.round`; the model computes the same quantities exactly on scaled
integers (metres are integral in the routing contract). -/
def formatDistance (meters : Nat) : String :=
  if meters < 1000 then toString meters ++ " meters"
  else if meters * 10 < 160934 then
    let tenths := (meters * 1000 + 80467) / 160934
    toString (tenths / 10) ++ "." ++ toString (tenths % 10) ++ " miles"
  else toString ((meters * 100 + 80467) / 160934) ++ " miles"

/-- formatDuration of utils/formatters.ts. -/
def formatDuration (seconds : Nat) : String :=
  let minutes := seconds / 60
  let hours := minutes / 60
  if hours > 0 then
    let remainingMinutes := minutes % 60
    if remainingMinutes == 0 then
      toString hours ++ " " ++ (if hours == 1 then "hour" else "hours")
    else toString hours ++ "h " ++ toString remainingMinutes ++ "m"
  else toString minutes ++ " " ++ (if minutes == 1 then "minute" else "minutes")

/-- formatEta of utils/formatters.ts; the source reads `new Date()` itself,
the model receives the clock explicitly.  Times are in milliseconds. -/
def formatEta (now estimatedArrival : Int) : String :=
  let diffMs := estimatedArrival - now
  let diffMinutes := Int.fdiv diffMs 60000
  if diffMinutes < 0 then "arrived"
  else if diffMinutes < 60 then toString diffMinutes ++ " min"
  else
    let hours := Int.fdiv diffMinutes 60
    let minutes := Int.emod diffMinutes 60
    if minutes == 0 then toString hours ++ " " ++ (if hours == 1 then "hour" else "hours")
    else toString hours ++ "h " ++ toString minutes ++ "m"

/-! ## Data model (prisma/schema.prisma rows as used by the core) -/

/-- A User row.  Coordinates and ids that the store generates are modelled
with `Nat`/`Int`; user ids stay strings as the services receive them. -/
structure UserRow where
  id : String
  phoneNumber : String
  name : String
  isPrimaryUser : Bool
deriving DecidableEq

/-- A Contact row. -/
structure ContactRow where
  ownerId : String
  name : String
  phoneNumber : Option String
  email : Option String
  relationship : Option String
deriving DecidableEq

/-- A Permission row: ternary relation with activity flag and optional
expiry (milliseconds). -/
structure PermissionRow where
  userId : String
  grantedByUserId : String
  permissionType : String
  isActive : Bool
  expiresAt : Option Int
deriving DecidableEq

/-- A List row. -/
structure ListRow where
  id : Nat
  ownerId : String
  name : String
  type : String
  isShared : Bool
  createdAt : Nat
deriving DecidableEq

/-- A ListItem row. -/
structure ListItemRow where
  id : Nat
  listId : Nat
  content : String
  quantity : Option String
  addedByUserId : Option String
  isCompleted : Bool
  completedAt : Option Int
  createdAt : Nat
deriving DecidableEq

/-- A ListShare row. -/
structure ListShareRow where
  listId : Nat
  sharedWithUserId : String
  canEdit : Bool
deriving DecidableEq

/-- A Location row; latitude/longitude are the fixed-precision decimals of
the schema, modelled as scaled integers. -/
structure LocationRow where
  id : Nat
  userId : String
  latitude : Int
  longitude : Int
  address : Option String
  label : Option String
  isCurrent : Bool
  createdAt : Nat
deriving DecidableEq

/-- A Trip row. -/
structure TripRow where
  id : Nat
  userId : String
  originLat : Option Int
  originLng : Option Int
  originAddress : Option String
  destinationLat : Int
  destinationLng : Int
  destinationAddress : String
  destinationLabel : Option String
  estimatedArrival : Option Int
  status : String
  completedAt : Option Int
  createdAt : Nat
deriving DecidableEq

/-- A MessageLog row. -/
structure MessageRow where
  fromPhone : String
  toPhone : String
  messageBody : String
  direction : String
  twilioSid : Option String
  status : String
  intent : Option String
deriving DecidableEq

/-- The repository state: one table per entity, a monotone id/creation
counter, and the current wall clock in milliseconds. -/
structure DB where
  users : List UserRow
  contacts : List ContactRow
  permissions : List PermissionRow
  lists : List ListRow
  listItems : List ListItemRow
  listShares : List ListShareRow
  locations : List LocationRow
  trips : List TripRow
  messageLog : List MessageRow
  nextId : Nat
  now : Int
deriving DecidableEq

/-- Entities extracted by classification (types/intents.ts). -/
structure IntentEntities where
  contactName : Option String
  listName : Option String
  listItem : Option String
  quantity : Option String
  location : Option String
  destination : Option String
  duration : Option String
deriving DecidableEq

/-- A classification result.  The source types `intent` as the IntentType
enum but `recognizeIntent` casts the model's raw output into it without
validation, so at runtime the label is an arbitrary string; the model keeps
it a string.  Confidence is carried but never consulted by the core. -/
structure IntentResult where
  intent : String
  confidence : Int
  entities : IntentEntities
  rawMessage : String
deriving DecidableEq

/-- Result of the geocoding collaborator (config/google-maps.ts). -/
structure GeocodeResult where
  lat : Int
  lng : Int
  formattedAddress : String
deriving DecidableEq

/-- Result of the routing collaborator (config/google-maps.ts): metres and
seconds. -/
structure RouteInfo where
  distance : Nat
  duration : Nat
  durationInTraffic : Nat
  polyline : String
deriving DecidableEq

/-- One query sent to the routing collaborator: origin and destination
coordinates. -/
abbrev RouteQuery := (Int × Int) × (Int × Int)

/-- The environment of external collaborators and failure switches: the
repository availability flag, the SMS channel, geocoding, routing and the
classification service. -/
structure Env where
  storageUp : Bool
  twilioUp : Bool
  twilioSid : String
  twilioStatus : String
  nodeEnv : Option String
  geocode : String → Option GeocodeResult
  route : Int × Int → Int × Int → Option RouteInfo
  classify : String → UserRow → IntentResult

/-! ## Shared query helpers -/

/-- Prisma `findFirst` with `orderBy: createdAt desc`: the earliest row
among those satisfying `p` whose key is maximal. -/
def findFirstDesc (p : α → Bool) (key : α → Nat) : List α → Option α
  | [] => none
  | x :: xs =>
    let rest := findFirstDesc p key xs
    if p x then
      match rest with
      | none => some x
      | some c => if key x < key c then some c else some x
    else rest

/-- Stable insertion into an ascending list (for the `orderBy` clauses that
sort query results). -/
def insertAsc (le : α → α → Bool) (x : α) : List α → List α
  | [] => [x]
  | y :: ys => if le y x then y :: insertAsc le x ys else x :: y :: ys

/-- Stable insertion sort. -/
def sortAsc (le : α → α → Bool) : List α → List α
  | [] => []
  | x :: xs => insertAsc le x (sortAsc le xs)

/-! ## Trip / location engine (services/location.service.ts) -/

/-- updateLocation: within one transaction, flip `isCurrent := false` on
every current row of the user and insert the new current row.  A repository
failure aborts the whole transaction (the catch returns null and the state
is unchanged). -/
def updateLocation (env : Env) (db : DB) (userId : String) (latitude longitude : Int)
    (address label : Option String) : DB × Option LocationRow :=
  if env.storageUp then
    let cleared := db.locations.map fun r =>
      if r.userId == userId && r.isCurrent then { r with isCurrent := false } else r
    let location : LocationRow :=
      { id := db.nextId, userId := userId, latitude := latitude, longitude := longitude,
        address := address, label := label, isCurrent := true, createdAt := db.nextId }
    ({ db with locations := cleared ++ [location], nextId := db.nextId + 1 }, some location)
  else (db, none)

/-- updateLocationFromAddress: geocode, abort with null on geocoding
failure, otherwise store the geocoded coordinates and formatted address. -/
def updateLocationFromAddress (env : Env) (db : DB) (userId address : String)
    (label : Option String) : DB × Option LocationRow :=
  match env.geocode address with
  | none => (db, none)
  | some geocodeResult =>
    updateLocation env db userId geocodeResult.lat geocodeResult.lng
      (some geocodeResult.formattedAddress) label

/-- getCurrentLocation: findFirst isCurrent row of the user, newest first. -/
def getCurrentLocation (env : Env) (db : DB) (userId : String) : Option LocationRow :=
  if env.storageUp then
    findFirstDesc (fun r => r.userId == userId && r.isCurrent) (fun r => r.createdAt) db.locations
  else none

/-- startTrip: snapshot the current location as origin, geocode the
destination (abort with no row on failure), compute the ETA through the
routing collaborator when an origin exists, and persist the trip as
active. -/
def startTrip (env : Env) (db : DB) (userId destinationAddress : String)
    (destinationLabel : Option String) : DB × Option TripRow :=
  if env.storageUp then
    let currentLocation := getCurrentLocation env db userId
    match env.geocode destinationAddress with
    | none => (db, none)
    | some destGeocode =>
      let estimatedArrival : Option Int :=
        match currentLocation with
        | some loc =>
          match env.route (loc.latitude, loc.longitude) (destGeocode.lat, destGeocode.lng) with
          | some directions => some (db.now + (directions.durationInTraffic : Int) * 1000)
          | none => none
        | none => none
      let trip : TripRow :=
        { id := db.nextId, userId := userId,
          originLat := currentLocation.map (fun l => l.latitude),
          originLng := currentLocation.map (fun l => l.longitude),
          originAddress := match currentLocation with
            | some l => if strFalsy l.address then none else l.address
            | none => none,
          destinationLat := destGeocode.lat, destinationLng := destGeocode.lng,
          destinationAddress := destGeocode.formattedAddress,
          destinationLabel := destinationLabel,
          estimatedArrival := estimatedArrival,
          status := "active", completedAt := none, createdAt := db.nextId }
      ({ db with trips := db.trips ++ [trip], nextId := db.nextId + 1 }, some trip)
  else (db, none)

/-- getActiveTrip: findFirst of the user's active trips, newest first. -/
def getActiveTrip (env : Env) (db : DB) (userId : String) : Option TripRow :=
  if env.storageUp then
    findFirstDesc (fun t => t.userId == userId && t.status == "active")
      (fun t => t.createdAt) db.trips
  else none

/-- cancelTrip: set the trip's status to cancelled and stamp completedAt.
Prisma's `update` on a missing id raises, which the catch turns into
`false`. -/
def cancelTrip (env : Env) (db : DB) (tripId : Nat) : DB × Bool :=
  if env.storageUp then
    if db.trips.any (fun t => t.id == tripId) then
      ({ db with trips := db.trips.map fun t =>
          if t.id == tripId then { t with status := "cancelled", completedAt := some db.now }
          else t }, true)
    else (db, false)
  else (db, false)

/-- The recomputed ETA returned by calculateEta. -/
structure EtaInfo where
  duration : Nat
  durationInTraffic : Nat
  distance : Nat
  estimatedArrival : Int
deriving DecidableEq

/-- calculateEta: one call to the routing collaborator; alongside the
result the model returns the list of routing queries issued, so theorems
can speak about which origin/destination the collaborator was given. -/
def calculateEta (env : Env) (now : Int) (origin destination : Int × Int) :
    Option EtaInfo × List RouteQuery :=
  (match env.route origin destination with
   | none => none
   | some directions =>
     some { duration := directions.duration,
            durationInTraffic := directions.durationInTraffic,
            distance := directions.distance,
            estimatedArrival := now + (directions.durationInTraffic : Int) * 1000 },
   [(origin, destination)])

/-! ## Permission guard (services/permission.service.ts) -/

/-- The `findUnique` lookup on the (subject, grantor, kind) composite key. -/
def findPermission (db : DB) (userId grantedByUserId permissionType : String) :
    Option PermissionRow :=
  db.permissions.find? fun p =>
    p.userId == userId && p.grantedByUserId == grantedByUserId &&
      p.permissionType == permissionType

/-- hasPermission: primary-user bypass, self-access, explicit active row,
then the expiry test `expiresAt < new Date()`.  A repository failure during
the lookup resolves to deny (fail closed). -/
def hasPermission (env : Env) (db : DB) (requestingUser : UserRow)
    (targetUserId permissionType : String) : Bool :=
  if requestingUser.isPrimaryUser then true
  else if requestingUser.id == targetUserId then true
  else if !env.storageUp then false
  else
    match findPermission db requestingUser.id targetUserId permissionType with
    | none => false
    | some permission =>
      if !permission.isActive then false
      else
        match permission.expiresAt with
        | some t => if t < db.now then false else true
        | none => true

/-! ## List access (services/list.service.ts) -/

/-- getOrCreateGroceryList: find the user's grocery-typed list or create
it.  This is the one service whose catch rethrows, so it is the one that
can raise into a handler. -/
def getOrCreateGroceryList (env : Env) (db : DB) (userId : String) :
    Except String (DB × ListRow) :=
  if !env.storageUp then .error "storage failure"
  else
    match db.lists.find? (fun l => l.ownerId == userId && l.type == "grocery") with
    | some list => .ok (db, list)
    | none =>
      let list : ListRow :=
        { id := db.nextId, ownerId := userId, name := "Grocery List", type := "grocery",
          isShared := false, createdAt := db.nextId }
      .ok ({ db with lists := db.lists ++ [list], nextId := db.nextId + 1 }, list)

/-- The owned-list branch of getList's where-clause: owner plus
case-insensitive name substring, or owner plus type equal to the
lower-cased query. -/
def listNameTypeOwned (userId q : String) (l : ListRow) : Bool :=
  (l.ownerId == userId && ciContains l.name q) ||
    (l.ownerId == userId && l.type == lowerStr q)

/-- getList: default to the (lazily created) grocery list when no name or
type is given; otherwise findFirst among the lists the user owns.  Search
does not reach shared lists (the source's own comment defers those to
getUserAccessibleList). -/
def getList (env : Env) (db : DB) (userId : String) (listNameOrType : Option String) :
    DB × Option ListRow :=
  if strFalsy listNameOrType then
    match getOrCreateGroceryList env db userId with
    | .ok (db', l) => (db', some l)
    | .error _ => (db, none)
  else if env.storageUp then
    (db, db.lists.find? (listNameTypeOwned userId (optStr listNameOrType)))
  else (db, none)

/-- Does a ListShare row share list `l` with `userId`? -/
def listSharedWith (db : DB) (l : ListRow) (userId : String) : Bool :=
  db.listShares.any fun s => s.listId == l.id && s.sharedWithUserId == userId

/-- The name/type match used by getUserAccessibleList: case-insensitive
name substring, or type equal to the lower-cased query. -/
def listNameTypeMatch (q : String) (l : ListRow) : Bool :=
  ciContains l.name q || l.type == lowerStr q

/-- getUserAccessibleList: one findFirst over lists the user owns OR lists
shared with the user, under the same name/type match. -/
def getUserAccessibleList (env : Env) (db : DB) (userId : String)
    (listNameOrType : Option String) : DB × Option ListRow :=
  if strFalsy listNameOrType then
    match getOrCreateGroceryList env db userId with
    | .ok (db', l) => (db', some l)
    | .error _ => (db, none)
  else if env.storageUp then
    let q := optStr listNameOrType
    (db, db.lists.find? fun l =>
      (l.ownerId == userId && listNameTypeMatch q l) ||
        (listSharedWith db l userId && listNameTypeMatch q l))
  else (db, none)

/-- The ascending (isCompleted, createdAt) order of getListItems. -/
def itemOrderLe (a b : ListItemRow) : Bool :=
  (!a.isCompleted && b.isCompleted) ||
    (a.isCompleted == b.isCompleted && a.createdAt ≤ b.createdAt)

/-- getListItems: the items of one list, incomplete first then by creation
time; a repository failure yields the empty list. -/
def getListItems (env : Env) (db : DB) (listId : Nat) : List ListItemRow :=
  if env.storageUp then
    sortAsc itemOrderLe (db.listItems.filter (fun it => it.listId == listId))
  else []

/-- addListItem: insert one item with trimmed content. -/
def addListItem (env : Env) (db : DB) (listId : Nat) (content : String)
    (quantity addedByUserId : Option String) : DB × Option ListItemRow :=
  if env.storageUp then
    let item : ListItemRow :=
      { id := db.nextId, listId := listId, content := jsTrim content, quantity := quantity,
        addedByUserId := addedByUserId, isCompleted := false, completedAt := none,
        createdAt := db.nextId }
    ({ db with listItems := db.listItems ++ [item], nextId := db.nextId + 1 }, some item)
  else (db, none)

/-- The deleteMany where-clause of removeListItem: same list,
case-insensitive content substring. -/
def itemMatches (listId : Nat) (q : String) (it : ListItemRow) : Bool :=
  it.listId == listId && ciContains it.content q

/-- removeListItem: deleteMany of all matching rows of the list, returning
the removed count (0 on repository failure). -/
def removeListItem (env : Env) (db : DB) (listId : Nat) (contentToRemove : String) :
    DB × Nat :=
  if env.storageUp then
    ({ db with listItems := db.listItems.filter fun it => !itemMatches listId contentToRemove it },
     db.listItems.countP (itemMatches listId contentToRemove))
  else (db, 0)

/-- The updateMany where-clause of markItemComplete: matching rows of the
list that are not already completed. -/
def markMatches (listId : Nat) (q : String) (it : ListItemRow) : Bool :=
  it.listId == listId && ciContains it.content q && !it.isCompleted

/-- markItemComplete: updateMany setting isCompleted and completedAt on the
not-yet-completed matching rows, returning the affected count. -/
def markItemComplete (env : Env) (db : DB) (listId : Nat) (contentToMark : String) :
    DB × Nat :=
  if env.storageUp then
    ({ db with listItems := db.listItems.map fun it =>
        if markMatches listId contentToMark it then
          { it with isCompleted := true, completedAt := some db.now }
        else it },
     db.listItems.countP (markMatches listId contentToMark))
  else (db, 0)

/-- clearList: deleteMany of every item of the list. -/
def clearList (env : Env) (db : DB) (listId : Nat) : DB × Nat :=
  if env.storageUp then
    ({ db with listItems := db.listItems.filter fun it => !(it.listId == listId) },
     db.listItems.countP (fun it => it.listId == listId))
  else (db, 0)

/-- createList: insert a list with the given name and type ("general" at
the handler's call site). -/
def createList (env : Env) (db : DB) (ownerId name type : String) : DB × Option ListRow :=
  if env.storageUp then
    let list : ListRow :=
      { id := db.nextId, ownerId := ownerId, name := name, type := type,
        isShared := false, createdAt := db.nextId }
    ({ db with lists := db.lists ++ [list], nextId := db.nextId + 1 }, some list)
  else (db, none)

/-! ## Contacts (services/contact.service.ts) -/

/-- searchContacts: case-insensitive substring match on the trimmed,
lower-cased query over the owner's contacts, ordered by name. -/
def searchContacts (env : Env) (db : DB) (ownerId nameQuery : String) : List ContactRow :=
  if env.storageUp then
    let normalizedQuery := lowerStr (jsTrim nameQuery)
    sortAsc (fun a b => decide (a.name ≤ b.name))
      (db.contacts.filter fun c => c.ownerId == ownerId && ciContains c.name normalizedQuery)
  else []

/-! ## Row-level formatters (utils/formatters.ts) -/

/-- One rendered line of formatListForSms (checkbox, 1-based index,
content, optional quantity). -/
def formatListItemLine (idx : Nat) (it : ListItemRow) : String :=
  (if it.isCompleted then "✓" else "○") ++ " " ++ toString (idx + 1) ++ ". " ++
    it.content ++ (if strFalsy it.quantity then "" else " (" ++ optStr it.quantity ++ ")")

/-- Number a list of rows from a starting index. -/
def numberLines (i : Nat) : List ListItemRow → List String
  | [] => []
  | x :: xs => formatListItemLine i x :: numberLines (i + 1) xs

/-- formatListForSms: header with item count, then one numbered line per
item, truncated to the SMS limit. -/
def formatListForSms (listName : String) (items : List ListItemRow) : String :=
  if items.length == 0 then listName ++ " is empty."
  else
    let header := listName ++ " (" ++ toString items.length ++
      (if items.length == 1 then " item" else " items") ++ "):\n\n"
    truncateForSms (header ++ joinSep "\n" (numberLines 0 items))

/-- formatContactForSms: name, optional relationship, then phone and email
lines, with a final trim. -/
def formatContactForSms (contact : ContactRow) : String :=
  let t1 := contact.name ++
    (if strFalsy contact.relationship then "" else " (" ++ optStr contact.relationship ++ ")")
  let t2 := t1 ++ "\n"
  let t3 := t2 ++
    (if strFalsy contact.phoneNumber then "" else "Phone: " ++ optStr contact.phoneNumber ++ "\n")
  let t4 := t3 ++
    (if strFalsy contact.email then "" else "Email: " ++ optStr contact.email ++ "\n")
  jsTrim t4

/-- formatHelpMessage: the fixed capability text. -/
def formatHelpMessage : String :=
  truncateForSms ("I can help you with:\n\n📱 Contacts\n• \"What's [name]'s phone number?\"\n• \"Get [name]'s email\"\n\n📝 Lists\n• \"Add [item] to grocery list\"\n• \"Show me the grocery list\"\n• \"Mark [item] as bought\"\n• \"Remove [item]\"\n\n📍 Location (coming soon)\n• \"I'm at [location]\"\n• \"Where is [person]?\"\n\nReply with your command or question!")

/-! ## Intent handlers (handlers/contact.handler.ts, list.handler.ts,
location.handler.ts, help.handler.ts) -/

/-- handleContactLookup: search by name, reply with the single match's
card, a disambiguation request, or a not-found message. -/
def handleContactLookup (env : Env) (db : DB) (intent : IntentResult) (user : UserRow) :
    String :=
  if strFalsy intent.entities.contactName then
    "I couldn't figure out which contact you're looking for. Please specify a name."
  else
    let contactName := optStr intent.entities.contactName
    match searchContacts env db user.id contactName with
    | [] => "I couldn't find any contact matching \"" ++ contactName ++
        "\". Please check the spelling or add them to your contacts first."
    | [c] => formatContactForSms c
    | cs => "I found " ++ toString cs.length ++ " contacts matching \"" ++ contactName ++
        "\": " ++ joinSep ", " (cs.map (fun c => c.name)) ++ ". Please be more specific."

/-- handleContactShare: fixed Phase-2 placeholder reply. -/
def handleContactShare : String :=
  "Contact sharing isn't implemented yet, but I'm working on it! For now, you can look up the contact and copy the information manually."

/-- handleListView: resolve the list (grocery by default) and render it. -/
def handleListView (env : Env) (db : DB) (intent : IntentResult) (user : UserRow) :
    String × DB :=
  let listName := intent.entities.listName
  match getList env db user.id listName with
  | (db1, none) =>
    (if !strFalsy listName then
      "I couldn't find a list named \"" ++ optStr listName ++
        "\". Try \"show me the grocery list\" or create a new list first."
     else "You don't have a grocery list yet. Add items to get started!", db1)
  | (db1, some list) => (formatListForSms list.name (getListItems env db1 list.id), db1)

/-- The quantity suffix of the add-item replies. -/
def quantSuffix (q : Option String) : String :=
  if strFalsy q then "" else " (" ++ optStr q ++ ")"

/-- handleListAddItem: resolve or lazily create the list and insert the
item.  The direct getOrCreateGroceryList call is the one place a handler
can raise into the dispatcher. -/
def handleListAddItem (env : Env) (db : DB) (intent : IntentResult) (user : UserRow) :
    Except String (String × DB) :=
  let listName := intent.entities.listName
  if strFalsy intent.entities.listItem then
    .ok ("I couldn't figure out what item to add. Please specify the item name.", db)
  else
    let itemContent := optStr intent.entities.listItem
    let quantity := intent.entities.quantity
    match getList env db user.id listName with
    | (db1, none) =>
      if strFalsy listName then
        match getOrCreateGroceryList env db1 user.id with
        | .error e => .error e
        | .ok (db2, groceryList) =>
          match addListItem env db2 groceryList.id itemContent quantity (some user.id) with
          | (db3, none) => .ok ("Sorry, I had trouble adding that item. Please try again.", db3)
          | (db3, some _) =>
            .ok ("Added \"" ++ itemContent ++ "\"" ++ quantSuffix quantity ++ " to " ++
              groceryList.name ++ ".", db3)
      else
        .ok ("I couldn't find a list named \"" ++ optStr listName ++
          "\". Would you like me to create it? (This feature is coming soon!)", db1)
    | (db1, some list) =>
      match addListItem env db1 list.id itemContent quantity (some user.id) with
      | (db2, none) => .ok ("Sorry, I had trouble adding that item. Please try again.", db2)
      | (db2, some _) =>
        .ok ("Added \"" ++ itemContent ++ "\"" ++ quantSuffix quantity ++ " to " ++
          list.name ++ ".", db2)

/-- handleListRemoveItem: resolve the list, bulk-delete by content match,
report the removed count. -/
def handleListRemoveItem (env : Env) (db : DB) (intent : IntentResult) (user : UserRow) :
    String × DB :=
  let listName := intent.entities.listName
  if strFalsy intent.entities.listItem then
    ("I couldn't figure out what item to remove. Please specify the item name.", db)
  else
    let itemContent := optStr intent.entities.listItem
    match getList env db user.id listName with
    | (db1, none) =>
      (if !strFalsy listName then "I couldn't find a list named \"" ++ optStr listName ++ "\"."
       else "You don't have a grocery list yet.", db1)
    | (db1, some list) =>
      match removeListItem env db1 list.id itemContent with
      | (db2, 0) => ("I couldn't find \"" ++ itemContent ++ "\" in " ++ list.name ++ ".", db2)
      | (db2, 1) => ("Removed \"" ++ itemContent ++ "\" from " ++ list.name ++ ".", db2)
      | (db2, n) => ("Removed " ++ toString n ++ " items matching \"" ++ itemContent ++
          "\" from " ++ list.name ++ ".", db2)

/-- handleListMarkComplete: resolve the list, bulk-complete by content
match, report the affected count. -/
def handleListMarkComplete (env : Env) (db : DB) (intent : IntentResult) (user : UserRow) :
    String × DB :=
  let listName := intent.entities.listName
  if strFalsy intent.entities.listItem then
    ("I couldn't figure out what item to mark as complete. Please specify the item name.", db)
  else
    let itemContent := optStr intent.entities.listItem
    match getList env db user.id listName with
    | (db1, none) =>
      (if !strFalsy listName then "I couldn't find a list named \"" ++ optStr listName ++ "\"."
       else "You don't have a grocery list yet.", db1)
    | (db1, some list) =>
      match markItemComplete env db1 list.id itemContent with
      | (db2, 0) => ("I couldn't find \"" ++ itemContent ++ "\" in " ++ list.name ++
          ", or it's already marked as complete.", db2)
      | (db2, 1) => ("Marked \"" ++ itemContent ++ "\" as complete in " ++ list.name ++ ".", db2)
      | (db2, n) => ("Marked " ++ toString n ++ " items matching \"" ++ itemContent ++
          "\" as complete in " ++ list.name ++ ".", db2)

/-- handleListClear: resolve the list and delete all of its items. -/
def handleListClear (env : Env) (db : DB) (intent : IntentResult) (user : UserRow) :
    String × DB :=
  let listName := intent.entities.listName
  match getList env db user.id listName with
  | (db1, none) =>
    (if !strFalsy listName then "I couldn't find a list named \"" ++ optStr listName ++ "\"."
     else "You don't have a grocery list yet.", db1)
  | (db1, some list) =>
    match clearList env db1 list.id with
    | (db2, 0) => (list.name ++ " is already empty.", db2)
    | (db2, n) => ("Cleared " ++ toString n ++ " " ++ (if n == 1 then "item" else "items") ++
        " from " ++ list.name ++ ".", db2)

/-- handleListCreate: create a list of type "general" with the given
name. -/
def handleListCreate (env : Env) (db : DB) (intent : IntentResult) (user : UserRow) :
    String × DB :=
  let listName := intent.entities.listName
  if strFalsy listName then
    ("I couldn't figure out what to name the new list. Please specify a name.", db)
  else
    match createList env db user.id (optStr listName) "general" with
    | (db1, none) => ("Sorry, I had trouble creating that list. Please try again.", db1)
    | (db1, some list) => ("Created \"" ++ list.name ++ "\". You can now add items to it!", db1)

/-- handleListShare: fixed Phase-2 placeholder reply. -/
def handleListShare : String :=
  "List sharing isn't fully implemented yet, but I'm working on it! The grocery list is already shared with family members by default."

/-- handleLocationUpdate: geocode the free-text location and store it as
the new current location. -/
def handleLocationUpdate (env : Env) (db : DB) (intent : IntentResult) (user : UserRow) :
    String × DB :=
  if strFalsy intent.entities.location then
    ("I couldn't figure out where you are. Please specify a location or address.", db)
  else
    let location := optStr intent.entities.location
    match updateLocationFromAddress env db user.id location none with
    | (db1, none) =>
      ("Sorry, I couldn't find the location \"" ++ location ++
        "\". Please try a more specific address.", db1)
    | (db1, some updatedLocation) =>
      ("Got it! I've updated your location to " ++ jsOrStr updatedLocation.address location ++
        ".", db1)

/-- handleTripStart: start a trip to the extracted destination; the reply
carries an ETA clause only when the stored trip has one. -/
def handleTripStart (env : Env) (db : DB) (intent : IntentResult) (user : UserRow) :
    String × DB :=
  let destination :=
    if strFalsy intent.entities.destination then intent.entities.location
    else intent.entities.destination
  if strFalsy destination then
    ("I couldn't figure out where you're heading. Please specify a destination.", db)
  else
    match startTrip env db user.id (optStr destination) none with
    | (db1, none) =>
      ("Sorry, I couldn't find the destination \"" ++ optStr destination ++
        "\". Please try a more specific address.", db1)
    | (db1, some trip) =>
      ("Got it! Heading to " ++ trip.destinationAddress ++ "." ++
        (match trip.estimatedArrival with
         | some e => " ETA: " ++ formatEta db1.now e
         | none => ""), db1)

/-- handleTripCancel: cancel the user's active trip, or report the no-op. -/
def handleTripCancel (env : Env) (db : DB) (user : UserRow) : String × DB :=
  match getActiveTrip env db user.id with
  | none => ("You don't have an active trip to cancel.", db)
  | some activeTrip =>
    match cancelTrip env db activeTrip.id with
    | (db1, false) => ("Sorry, I had trouble cancelling your trip. Please try again.", db1)
    | (db1, true) =>
      ("Cancelled trip to " ++ jsOrStr activeTrip.destinationLabel activeTrip.destinationAddress
        ++ ".", db1)

/-- handleLocationQuery: report the user's stored current location. -/
def handleLocationQuery (env : Env) (db : DB) (user : UserRow) : String :=
  match getCurrentLocation env db user.id with
  | none =>
    "I don't have your current location. You can update it by saying something like 'I'm at the store' or 'I'm at [address]'."
  | some currentLocation =>
    let address := jsOrStr currentLocation.address
      (toString currentLocation.latitude ++ ", " ++ toString currentLocation.longitude)
    "Your current location: " ++ address ++
      (if strFalsy currentLocation.label then "" else " (" ++ optStr currentLocation.label ++ ")")

/-- The fixed no-active-trip reply of handleEtaQuery. -/
def noActiveTripReply : String :=
  "You don't have an active trip. Start one by saying something like 'I'm heading home'."

/-- The informational fallback of handleEtaQuery when the current location
or the stored estimatedArrival is missing. -/
def etaInfoReply (activeTrip : TripRow) : String :=
  "You're heading to " ++ jsOrStr activeTrip.destinationLabel activeTrip.destinationAddress ++
    ", but I don't have enough information to calculate ETA. Try updating your current location."

/-- handleEtaQuery: needs an active trip; recomputes the ETA through the
routing collaborator only when both a current location and the stored
estimatedArrival are present (`!currentLocation || !activeTrip.estimatedArrival`
short-circuits to the informational reply).  Returns the reply together
with the routing queries issued. -/
def handleEtaQuery (env : Env) (db : DB) (user : UserRow) : String × List RouteQuery :=
  match getActiveTrip env db user.id with
  | none => (noActiveTripReply, [])
  | some activeTrip =>
    match getCurrentLocation env db user.id, activeTrip.estimatedArrival with
    | some currentLocation, some _ =>
      match calculateEta env db.now (currentLocation.latitude, currentLocation.longitude)
          (activeTrip.destinationLat, activeTrip.destinationLng) with
      | (none, log) => ("Sorry, I had trouble calculating your ETA. Please try again.", log)
      | (some eta, log) =>
        ("Heading to " ++ jsOrStr activeTrip.destinationLabel activeTrip.destinationAddress ++
          ". ETA: " ++ formatEta db.now eta.estimatedArrival ++ " (" ++
          formatDistance eta.distance ++ ", ~" ++ formatDuration eta.durationInTraffic ++
          " in traffic)", log)
    | _, _ => (etaInfoReply activeTrip, [])

/-- handleHelp: the capability text. -/
def handleHelp : String := formatHelpMessage

/-- handleStatus: primary users get the system banner, others a denial. -/
def handleStatus (env : Env) (user : UserRow) : String :=
  if !user.isPrimaryUser then "You don't have permission to view system status."
  else
    "SMS Assistant v1.0\n\nStatus: ✓ Running\nEnvironment: " ++ jsOrStr env.nodeEnv "development"
      ++ "\n\nAll systems operational."

/-- handleUnknown: the fallback reply for unknown intents. -/
def handleUnknown (_intent : IntentResult) : String :=
  "I didn't quite understand that. " ++ formatHelpMessage

/-! ## Routing dispatcher (services/intent-router.service.ts) -/

/-- The intent labels the dispatcher's switch maps to a named handler
(everything else, including "unknown", falls to handleUnknown). -/
def intentLabels : List String :=
  ["contact_lookup", "contact_share", "list_view", "list_add_item", "list_remove_item",
   "list_mark_complete", "list_clear", "list_create", "list_share", "location_update",
   "trip_start", "trip_cancel", "location_query", "eta_query", "help", "status"]

/-- The body of handleIntent's try block: the switch over the intent label.
An `.error` value is a handler exception reaching the dispatcher. -/
def handleIntentSwitch (env : Env) (db : DB) (intent : IntentResult) (user : UserRow) :
    Except String (String × DB) :=
  if intent.intent == "contact_lookup" then .ok (handleContactLookup env db intent user, db)
  else if intent.intent == "contact_share" then .ok (handleContactShare, db)
  else if intent.intent == "list_view" then .ok (handleListView env db intent user)
  else if intent.intent == "list_add_item" then handleListAddItem env db intent user
  else if intent.intent == "list_remove_item" then .ok (handleListRemoveItem env db intent user)
  else if intent.intent == "list_mark_complete" then
    .ok (handleListMarkComplete env db intent user)
  else if intent.intent == "list_clear" then .ok (handleListClear env db intent user)
  else if intent.intent == "list_create" then .ok (handleListCreate env db intent user)
  else if intent.intent == "list_share" then .ok (handleListShare, db)
  else if intent.intent == "location_update" then .ok (handleLocationUpdate env db intent user)
  else if intent.intent == "trip_start" then .ok (handleTripStart env db intent user)
  else if intent.intent == "trip_cancel" then .ok (handleTripCancel env db user)
  else if intent.intent == "location_query" then .ok (handleLocationQuery env db user, db)
  else if intent.intent == "eta_query" then .ok ((handleEtaQuery env db user).1, db)
  else if intent.intent == "help" then .ok (handleHelp, db)
  else if intent.intent == "status" then .ok (handleStatus env user, db)
  else .ok (handleUnknown intent, db)

/-- The fixed generic apology of the dispatcher's catch. -/
def routerApology : String :=
  "Sorry, I encountered an error processing your request. Please try again."

/-- handleIntent: the switch guarded by the error-to-safe-reply boundary. -/
def handleIntent (env : Env) (db : DB) (intent : IntentResult) (user : UserRow) :
    String × DB :=
  match handleIntentSwitch env db intent user with
  | .ok r => r
  | .error _ => (routerApology, db)

/-! ## SMS channel and webhook controller (services/sms.service.ts,
controllers/sms.controller.ts) -/

/-- One message handed to the SMS channel. -/
structure SentSms where
  toNum : String
  fromNum : String
  body : String
deriving DecidableEq

/-- sendSms: truncate the body, hand it to the channel, then log the
outbound message.  A channel failure yields no send and no log row; a
repository failure after a successful send loses only the log row. -/
def sendSms (env : Env) (db : DB) (toNum fromNum body : String) : DB × Option SentSms :=
  if env.twilioUp then
    let b := truncateForSms body
    let row : MessageRow :=
      { fromPhone := formatPhoneNumber fromNum, toPhone := formatPhoneNumber toNum,
        messageBody := b, direction := "outbound", twilioSid := some env.twilioSid,
        status := env.twilioStatus, intent := none }
    ({ db with messageLog := if env.storageUp then db.messageLog ++ [row] else db.messageLog },
     some { toNum := toNum, fromNum := fromNum, body := b })
  else (db, none)

/-- The Twilio webhook payload fields the controller reads. -/
structure SmsPayload where
  MessageSid : String
  From : String
  To : String
  Body : String
deriving DecidableEq

/-- The fixed polite rejection sent to unauthorized senders. -/
def rejectionBody : String :=
  "Sorry, I don't recognize your number. Please contact the administrator to get access."

/-- The generic apology of the controller's catch. -/
def controllerApology : String :=
  "Sorry, I encountered an error processing your message. Please try again later."

/-- The observable outcome of one webhook call: the repository state, the
messages sent, and how often the classification service and the dispatcher
were invoked. -/
structure SmsOutcome where
  db : DB
  sent : List SentSms
  classifierCalls : Nat
  dispatchCalls : Nat

/-- handleIncomingSms: log the inbound message, check the sender against
the user whitelist, and either short-circuit with the fixed rejection or
classify, back-fill the intent, dispatch and reply.  A repository failure
falls into the catch, which sends the generic apology. -/
def handleIncomingSms (env : Env) (db : DB) (payload : SmsPayload) : SmsOutcome :=
  let fromPhone := formatPhoneNumber payload.From
  let toPhone := formatPhoneNumber payload.To
  let messageBody := jsTrim payload.Body
  if !env.storageUp then
    let (db1, s) := sendSms env db payload.From payload.To controllerApology
    { db := db1, sent := s.toList, classifierCalls := 0, dispatchCalls := 0 }
  else
    let inbound : MessageRow :=
      { fromPhone := fromPhone, toPhone := toPhone, messageBody := messageBody,
        direction := "inbound", twilioSid := some payload.MessageSid, status := "received",
        intent := none }
    let db1 := { db with messageLog := db.messageLog ++ [inbound] }
    match db1.users.find? (fun u => u.phoneNumber == fromPhone) with
    | none =>
      let (db2, s) := sendSms env db1 fromPhone toPhone rejectionBody
      { db := db2, sent := s.toList, classifierCalls := 0, dispatchCalls := 0 }
    | some sender =>
      let intentResult := env.classify messageBody sender
      let db2 := { db1 with messageLog := db1.messageLog.map fun m =>
        if m.twilioSid == some payload.MessageSid then { m with intent := some intentResult.intent }
        else m }
      let (responseMessage, db3) := handleIntent env db2 intentResult sender
      let (db4, s) := sendSms env db3 fromPhone toPhone responseMessage
      { db := db4, sent := s.toList, classifierCalls := 1, dispatchCalls := 1 }

/-! ## Derived definitions used by the verification -/

/-- One location-update command: the inputs of updateLocation plus whether
its transaction commits (`ok = false` models a repository failure, which
aborts the flip-and-insert atomically). -/
structure LocCmd where
  ok : Bool
  userId : String
  latitude : Int
  longitude : Int
  address : Option String
  label : Option String

/-- Run updateLocation for one command under its commit flag. -/
def applyLocCmd (env : Env) (db : DB) (c : LocCmd) : DB :=
  (updateLocation { env with storageUp := c.ok } db c.userId c.latitude c.longitude
    c.address c.label).1

/-- Run a sequence of location updates. -/
def applyLocCmds (env : Env) (db : DB) (cmds : List LocCmd) : DB :=
  cmds.foldl (applyLocCmd env) db

/-- The number of Location rows of a user flagged current. -/
def currentCount (db : DB) (u : String) : Nat :=
  db.locations.countP fun r => r.userId == u && r.isCurrent

/-- The number of items of one list. -/
def countItems (db : DB) (listId : Nat) : Nat :=
  db.listItems.countP fun it => it.listId == listId

/-- A classification result carrying only a trip destination, as the
ETA/trip scenarios use. -/
def mkTripIntent (addr : String) : IntentResult :=
  { intent := "trip_start", confidence := 0,
    entities := { contactName := none, listName := none, listItem := none, quantity := none,
                  location := none, destination := some addr, duration := none },
    rawMessage := "" }

/-- The ETA-query contract as the code implements it: without an active
trip the fixed no-trip reply and no routing call; with an active trip the
routing collaborator is consulted exactly once, with the current location
as origin and the trip's stored destination, when both a current location
and a stored estimatedArrival are present; otherwise the informational
reply and no routing call. -/
def EtaQuerySpec (env : Env) (db : DB) (user : UserRow) : Prop :=
  match getActiveTrip env db user.id with
  | none => handleEtaQuery env db user = (noActiveTripReply, [])
  | some t =>
    match getCurrentLocation env db user.id, t.estimatedArrival with
    | some loc, some _ =>
      (handleEtaQuery env db user).2 =
        [((loc.latitude, loc.longitude), (t.destinationLat, t.destinationLng))]
    | _, _ => handleEtaQuery env db user = (etaInfoReply t, [])

/-! ## Concrete states for witnesses and counterexamples -/

/-- Entities with nothing extracted. -/
def emptyEntities : IntentEntities :=
  { contactName := none, listName := none, listItem := none, quantity := none,
    location := none, duration := none, destination := none }

/-- An environment with both the repository and the SMS channel healthy and
every maps collaborator failing. -/
def envUp : Env :=
  { storageUp := true, twilioUp := true, twilioSid := "SMout", twilioStatus := "sent",
    nodeEnv := none, geocode := fun _ => none, route := fun _ _ => none,
    classify := fun m _ =>
      { intent := "unknown", confidence := 0, entities := emptyEntities, rawMessage := m } }

/-- A geocode result used by the trip scenarios. -/
def gMain : GeocodeResult := { lat := 7, lng := 8, formattedAddress := "123 Main St, Springfield" }

/-- An environment where geocoding succeeds and routing fails. -/
def envGeo : Env := { envUp with geocode := fun _ => some gMain }

/-- The empty repository. -/
def emptyDB : DB :=
  { users := [], contacts := [], permissions := [], lists := [], listItems := [],
    listShares := [], locations := [], trips := [], messageLog := [],
    nextId := 1, now := 1000000 }

/-- A non-primary requesting user. -/
def uAlice : UserRow :=
  { id := "u1", phoneNumber := "+15551111111", name := "Alice", isPrimaryUser := false }

/-- A location-update sequence exercising two users and one aborted
transaction. -/
def c1cmds : List LocCmd :=
  [{ ok := true, userId := "u1", latitude := 1, longitude := 2, address := none, label := none },
   { ok := true, userId := "u1", latitude := 3, longitude := 4, address := some "home",
     label := none },
   { ok := false, userId := "u2", latitude := 5, longitude := 6, address := none, label := none }]

/-- A repository whose only user is not the sender of the C2 payload. -/
def c2db : DB := { emptyDB with users := [uAlice] }

/-- An inbound message from a phone number outside the whitelist. -/
def c2payload : SmsPayload :=
  { MessageSid := "SM1", From := "+15550000000", To := "+15551234567", Body := " hello " }

/-- A contact whose stored name is empty. -/
def blankContact : ContactRow :=
  { ownerId := "u1", name := "", phoneNumber := none, email := none, relationship := none }

/-- A repository holding one contact whose stored name is empty. -/
def c3db : DB :=
  { emptyDB with users := [uAlice], contacts := [blankContact] }

/-- A contact lookup whose extracted name is a single blank. -/
def c3intent : IntentResult :=
  { intent := "contact_lookup", confidence := 0,
    entities := { emptyEntities with contactName := some " " }, rawMessage := "who" }

/-- A permission for Alice from u2 with a configurable expiry. -/
def c4perm (t : Int) : PermissionRow :=
  { userId := "u1", grantedByUserId := "u2", permissionType := "location", isActive := true,
    expiresAt := some t }

/-- A repository whose one permission expires exactly at the current time. -/
def c4db : DB :=
  { emptyDB with permissions := [c4perm 1000000] }

/-- The same repository with a strictly future expiry. -/
def c4wdb : DB :=
  { emptyDB with permissions := [c4perm 2000000] }

/-- A list owned by u2 and shared with u1 (u1 owns nothing). -/
def c5list : ListRow :=
  { id := 1, ownerId := "u2", name := "Grocery List", type := "grocery", isShared := true,
    createdAt := 0 }

/-- The share of c5list with u1. -/
def c5share : ListShareRow := { listId := 1, sharedWithUserId := "u1", canEdit := true }

/-- The repository for the shared-only resolution scenario. -/
def c5db : DB :=
  { emptyDB with lists := [c5list], listShares := [c5share], nextId := 2 }

/-- An active trip for u1 with no stored ETA. -/
def c6trip : TripRow :=
  { id := 1, userId := "u1", originLat := none, originLng := none, originAddress := none,
    destinationLat := 5, destinationLng := 6, destinationAddress := "Work",
    destinationLabel := none, estimatedArrival := none, status := "active",
    completedAt := none, createdAt := 0 }

/-- A current location for u1. -/
def c6loc : LocationRow :=
  { id := 2, userId := "u1", latitude := 1, longitude := 2, address := none, label := none,
    isCurrent := true, createdAt := 0 }

/-- A repository where u1 has a current location and an active trip whose
stored estimatedArrival is missing. -/
def c6db : DB :=
  { emptyDB with trips := [c6trip], locations := [c6loc], nextId := 3 }

/-- A grocery list owned by u1. -/
def c8list : ListRow :=
  { id := 1, ownerId := "u1", name := "Grocery List", type := "grocery", isShared := false,
    createdAt := 0 }

/-- A pre-existing "milkshake" item of that list. -/
def c8item : ListItemRow :=
  { id := 2, listId := 1, content := "milkshake", quantity := none, addedByUserId := none,
    isCompleted := false, completedAt := none, createdAt := 0 }

/-- A grocery list of u1 already holding a "milkshake" item. -/
def c8db : DB :=
  { emptyDB with lists := [c8list], listItems := [c8item], nextId := 3 }

/-- The C8 scenario state after adding "milk" and then removing "milk". -/
def c8after : DB :=
  (removeListItem envUp (addListItem envUp c8db 1 "milk" none (some "u1")).1 1 "milk").1

/-- A repository where u1 already has an older active trip to Work. -/
def c9xdb : DB := { emptyDB with trips := [c6trip], nextId := 2 }

/-- The C9 scenario state after starting a second trip and cancelling. -/
def c9xafter : DB :=
  (handleTripCancel envGeo (startTrip envGeo c9xdb "u1" "123 Main St" none).1 uAlice).2

/-- The audit row the controller writes for an inbound message. -/
def inboundRow (payload : SmsPayload) : MessageRow :=
  { fromPhone := formatPhoneNumber payload.From, toPhone := formatPhoneNumber payload.To,
    messageBody := jsTrim payload.Body, direction := "inbound",
    twilioSid := some payload.MessageSid, status := "received", intent := none }

/-- The outbound log row of the rejection reply. -/
def rejectionRow (env : Env) (payload : SmsPayload) : MessageRow :=
  { fromPhone := formatPhoneNumber payload.To, toPhone := formatPhoneNumber payload.From,
    messageBody := rejectionBody, direction := "outbound", twilioSid := some env.twilioSid,
    status := env.twilioStatus, intent := none }

/-- The rejection SMS as handed to the channel. -/
def rejectionSent (payload : SmsPayload) : SentSms :=
  { toNum := formatPhoneNumber payload.From, fromNum := formatPhoneNumber payload.To,
    body := rejectionBody }

/-- The Trip row startTrip persists, as a function of the snapshotted
origin and the computed arrival. -/
def tripRowFor (db : DB) (userId : String) (lbl : Option String) (g : GeocodeResult)
    (origin : Option LocationRow) (arr : Option Int) : TripRow :=
  { id := db.nextId, userId := userId,
    originLat := origin.map (fun l => l.latitude),
    originLng := origin.map (fun l => l.longitude),
    originAddress := match origin with
      | some l => if strFalsy l.address then none else l.address
      | none => none,
    destinationLat := g.lat, destinationLng := g.lng,
    destinationAddress := g.formattedAddress, destinationLabel := lbl,
    estimatedArrival := arr, status := "active", completedAt := none,
    createdAt := db.nextId }

/-- A trip row as cancelTrip rewrites it: cancelled with completedAt
stamped. -/
def cancelledAt (t : TripRow) (now : Int) : TripRow :=
  { t with status := "cancelled", completedAt := some now }

/-- The store after startTrip persisted trip `t`. -/
def dbAfterStart (db : DB) (t : TripRow) : DB :=
  { db with trips := db.trips ++ [t], nextId := db.nextId + 1 }

/-- The store after that trip was cancelled. -/
def dbAfterCancel (db : DB) (t : TripRow) : DB :=
  { db with trips := db.trips ++ [cancelledAt t db.now], nextId := db.nextId + 1 }

/-! ## Helper lemmas -/

theorem str_eq_iff_data {s t : String} : s = t ↔ s.data = t.data :=
  ⟨fun h => h ▸ rfl, fun h => by cases s; cases t; exact congrArg String.mk h⟩

theorem str_ne_of_data {s : String} (h : s.data ≠ []) : s ≠ "" := by
  intro he; subst he; exact h rfl

theorem append_ne_left {a : String} (b : String) (h : a ≠ "") : a ++ b ≠ "" := by
  intro he
  rw [str_eq_iff_data, String.data_append] at he
  exact h (str_eq_iff_data.mpr (List.append_eq_nil.mp he).1)

theorem append_ne_right (a : String) {b : String} (h : b ≠ "") : a ++ b ≠ "" := by
  intro he
  rw [str_eq_iff_data, String.data_append] at he
  exact h (str_eq_iff_data.mpr (List.append_eq_nil.mp he).2)

theorem truncate_ne {s : String} (h : s ≠ "") : truncateForSms s ≠ "" := by
  unfold truncateForSms
  split
  · exact h
  · apply str_ne_of_data
    rw [String.data_append]
    intro hd
    have h2 := (List.append_eq_nil.mp hd).2
    exact absurd h2 (by decide)

theorem str_append_empty (s : String) : s ++ "" = s :=
  str_eq_iff_data.mpr (by rw [String.data_append]; simp)

theorem clear_count (uid u : String) (l : List LocationRow) :
    ((l.map fun r => if r.userId == uid && r.isCurrent then { r with isCurrent := false }
        else r).countP fun r => r.userId == u && r.isCurrent) =
      if u = uid then 0 else l.countP fun r => r.userId == u && r.isCurrent := by
  induction l with
  | nil => simp
  | cons r l ih =>
    simp only [List.map_cons, List.countP_cons, ih]
    by_cases hc : (r.userId == uid && r.isCurrent) = true
    · have hc2 := hc
      rw [Bool.and_eq_true] at hc2
      obtain ⟨h1, h2⟩ := hc2
      have hru : r.userId = uid := beq_iff_eq.mp h1
      by_cases hu : u = uid
      · subst hu; simp [hc, hru, h2]
      · have : (r.userId == u) = false := by
          rw [hru]; exact beq_eq_false_iff_ne.mpr (fun hh => hu hh.symm)
        simp [hc, hu, this, hru, h2]
        exact fun hh => hu hh.symm
    · by_cases hu : u = uid
      · subst hu; simp [hc]
      · simp [hc, hu]

theorem updateLocation_count (env : Env) (db : DB) (uid : String) (lat lng : Int)
    (a b : Option String) (u : String) :
    currentCount (updateLocation env db uid lat lng a b).1 u =
      if env.storageUp then (if u = uid then 1 else currentCount db u)
      else currentCount db u := by
  unfold updateLocation currentCount
  by_cases hs : env.storageUp = true
  · simp only [hs, if_true]
    rw [List.countP_append, clear_count]
    by_cases hu : u = uid
    · subst hu; simp
    · have : (uid == u) = false := beq_eq_false_iff_ne.mpr (fun hh => hu hh.symm)
      simp [hu, this]
  · simp [hs]

/-- C1: along any sequence of location updates, each of which either fully
applies its transactional flip-and-insert or leaves the store untouched, at
most one Location row per user carries isCurrent = true. -/
theorem c1_single_current_invariant (env : Env) (db : DB) (cmds : List LocCmd)
    (hinv : ∀ u, currentCount db u ≤ 1) :
    ∀ u, currentCount (applyLocCmds env db cmds) u ≤ 1 := by
  induction cmds generalizing db with
  | nil => exact hinv
  | cons c cs ih =>
    have hstep : ∀ u, currentCount (applyLocCmd env db c) u ≤ 1 := by
      intro u
      unfold applyLocCmd
      rw [updateLocation_count]
      split
      · split
        · exact le_refl 1
        · exact hinv u
      · exact hinv u
    exact ih (applyLocCmd env db c) hstep

/-- C1 witness: a concrete run of two committed updates and one aborted
one leaves u1 with a single current row. -/
theorem c1_single_current_invariant_witness :
    currentCount (applyLocCmds envUp emptyDB c1cmds) "u1" ≤ 1 :=
  c1_single_current_invariant envUp emptyDB c1cmds
    (fun u => by simp [currentCount, emptyDB]) "u1"

/-- C4 counterexample: with an active permission whose expiresAt equals the
current time exactly, hasPermission returns true — the boundary is treated
as still valid, not as expired/denied as the claim states. -/
theorem c4_boundary_counterexample :
    hasPermission envUp c4db uAlice "u2" "location" = true := by decide

/-- C4 (amended): for a non-primary requester, a distinct target and an
active permission row with expiresAt set, hasPermission denies exactly when
expiresAt is strictly before the current time; at exact equality and in the
future it allows. -/
theorem c4_expiry_boundary (env : Env) (db : DB) (requestingUser : UserRow)
    (targetUserId permissionType : String) (p : PermissionRow) (t : Int)
    (hs : env.storageUp = true) (hp : requestingUser.isPrimaryUser = false)
    (hq : requestingUser.id ≠ targetUserId)
    (hf : findPermission db requestingUser.id targetUserId permissionType = some p)
    (ha : p.isActive = true) (he : p.expiresAt = some t) :
    hasPermission env db requestingUser targetUserId permissionType = decide (db.now ≤ t) := by
  have hq' : (requestingUser.id == targetUserId) = false := beq_eq_false_iff_ne.mpr hq
  simp only [hasPermission, hp, hq', hs, hf, ha, he, Bool.false_eq_true, if_false,
    Bool.not_true, Bool.not_false, if_true]
  by_cases h : t < db.now
  · have hn : ¬db.now ≤ t := by omega
    simp [h, hn]
  · have hy : db.now ≤ t := by omega
    simp [h, hy]

/-- C4 witness: a strictly future expiry at the same concrete state is
allowed. -/
theorem c4_expiry_boundary_witness :
    hasPermission envUp c4wdb uAlice "u2" "location" = decide ((1000000 : Int) ≤ 2000000) :=
  c4_expiry_boundary envUp c4wdb uAlice "u2" "location" (c4perm 2000000) 2000000 rfl rfl
    (by decide) rfl rfl rfl

/-- C5 counterexample: a list owned by u2, shared with u1 and matching
"groc", is not found by getList for u1 — the owned-only search does not
extend to shared lists; the extension lives in getUserAccessibleList. -/
theorem c5_shared_resolution_counterexample :
    (getList envUp c5db "u1" (some "groc")).2 = none ∧
      (getUserAccessibleList envUp c5db "u1" (some "groc")).2 = some c5list := by
  exact ⟨rfl, rfl⟩

/-- C5 (amended): getUserAccessibleList — not getList — extends name/type
resolution to lists shared via ListShare: whenever some list shared with
the user matches, it resolves to a list that is owned by or shared with the
user and matches. -/
theorem c5_shared_list_resolvable (env : Env) (db : DB) (userId q : String) (l : ListRow)
    (hs : env.storageUp = true) (hq : q ≠ "") (hl : l ∈ db.lists)
    (hsh : listSharedWith db l userId = true) (hm : listNameTypeMatch q l = true) :
    ∃ l', (getUserAccessibleList env db userId (some q)).2 = some l' ∧
      ((l'.ownerId == userId && listNameTypeMatch q l') ||
        (listSharedWith db l' userId && listNameTypeMatch q l')) = true := by
  have hfalsy : strFalsy (some q) = false := by simp [strFalsy, hq]
  have hex : (db.lists.find? fun l2 =>
      (l2.ownerId == userId && listNameTypeMatch q l2) ||
        (listSharedWith db l2 userId && listNameTypeMatch q l2)).isSome = true := by
    rw [List.find?_isSome]
    exact ⟨l, hl, by simp [hsh, hm]⟩
  obtain ⟨l', hl'⟩ := Option.isSome_iff_exists.mp hex
  have hpl' := List.find?_some hl'
  refine ⟨l', ?_, by simpa using hpl'⟩
  simp [getUserAccessibleList, hfalsy, hs, optStr, hl']

/-- C5 witness: the shared grocery list of the concrete state is resolved
for u1 by the query "groc". -/
theorem c5_shared_list_resolvable_witness :
    ∃ l', (getUserAccessibleList envUp c5db "u1" (some "groc")).2 = some l' ∧
      ((l'.ownerId == "u1" && listNameTypeMatch "groc" l') ||
        (listSharedWith c5db l' "u1" && listNameTypeMatch "groc" l')) = true :=
  c5_shared_list_resolvable envUp c5db "u1" "groc" c5list rfl (by decide) (by decide)
    (by decide) (by decide)

/-- C6 counterexample: u1 has an active trip and a known current location,
yet because the stored estimatedArrival is missing the handler answers the
informational fallback and never calls the routing collaborator — the
recompute is not performed "regardless of whether estimatedArrival is
set". -/
theorem c6_eta_counterexample :
    handleEtaQuery envUp c6db uAlice =
      ("You're heading to Work, but I don't have enough information to calculate ETA. Try updating your current location.",
       []) := by
  rfl

/-- C6 (amended): the ETA query consults the routing collaborator — once,
with the current location as origin and the trip's stored destination —
exactly when an active trip, a current location AND a stored
estimatedArrival are all present; with no active trip it answers the fixed
no-trip reply, and otherwise the informational fallback, in both cases
without any routing call. -/
theorem c6_eta_recompute_contract (env : Env) (db : DB) (user : UserRow) :
    EtaQuerySpec env db user := by
  unfold EtaQuerySpec
  cases hat : getActiveTrip env db user.id with
  | none => simp [handleEtaQuery, hat]
  | some t =>
    cases hcl : getCurrentLocation env db user.id with
    | none => cases het : t.estimatedArrival <;> simp [handleEtaQuery, hat, hcl, het]
    | some loc =>
      cases het : t.estimatedArrival with
      | none => simp [handleEtaQuery, hat, hcl, het]
      | some e =>
        cases hr : env.route (loc.latitude, loc.longitude)
            (t.destinationLat, t.destinationLng) <;>
          simp [handleEtaQuery, hat, hcl, het, calculateEta, hr]

/-- C7: trip start writes no Trip row when geocoding fails; when geocoding
succeeds but no origin is known or routing returns none, the trip is
persisted active with no estimatedArrival and the reply carries no ETA
clause. -/
theorem c7_trip_start_degraded (env : Env) (db : DB) (user : UserRow) (addr : String)
    (hs : env.storageUp = true) (ha : addr ≠ "") :
    (env.geocode addr = none →
      handleTripStart env db (mkTripIntent addr) user =
        ("Sorry, I couldn't find the destination \"" ++ addr ++
          "\". Please try a more specific address.", db)) ∧
    (∀ g, env.geocode addr = some g →
      (getCurrentLocation env db user.id = none ∨
        ∃ loc, getCurrentLocation env db user.id = some loc ∧
          env.route (loc.latitude, loc.longitude) (g.lat, g.lng) = none) →
      ((startTrip env db user.id addr none).2).isSome = true ∧
      (∀ t, (startTrip env db user.id addr none).2 = some t →
        t.status = "active" ∧ t.estimatedArrival = none ∧
        (startTrip env db user.id addr none).1.trips = db.trips ++ [t]) ∧
      handleTripStart env db (mkTripIntent addr) user =
        ("Got it! Heading to " ++ g.formattedAddress ++ ".",
          (startTrip env db user.id addr none).1)) := by
  have hfal : strFalsy (some addr) = false := by simp [strFalsy, ha]
  constructor
  · intro hg
    simp [handleTripStart, mkTripIntent, hfal, startTrip, hs, hg, optStr]
  · intro g hg hdeg
    rcases hdeg with hcl | ⟨loc, hcl, hroute⟩
    · refine ⟨?_, ?_, ?_⟩
      · simp [startTrip, hs, hg, hcl]
      · intro t ht
        simp only [startTrip, hs, if_true, hg, hcl] at ht
        simp only [Option.some_inj] at ht
        subst ht
        exact ⟨rfl, rfl, by simp [startTrip, hs, hg, hcl]⟩
      · simp [handleTripStart, mkTripIntent, hfal, optStr, startTrip, hs, hg, hcl,
          str_append_empty]
    · refine ⟨?_, ?_, ?_⟩
      · simp [startTrip, hs, hg, hcl, hroute]
      · intro t ht
        simp only [startTrip, hs, if_true, hg, hcl, hroute] at ht
        simp only [Option.some_inj] at ht
        subst ht
        exact ⟨rfl, rfl, by simp [startTrip, hs, hg, hcl, hroute]⟩
      · simp [handleTripStart, mkTripIntent, hfal, optStr, startTrip, hs, hg, hcl, hroute,
          str_append_empty]

/-- C7 witness: at the concrete state with geocoding up and routing down,
both branches of the degraded trip-start contract hold. -/
theorem c7_trip_start_degraded_witness :
    (envGeo.geocode "456 Oak Ave" = none →
      handleTripStart envGeo emptyDB (mkTripIntent "456 Oak Ave") uAlice =
        ("Sorry, I couldn't find the destination \"" ++ "456 Oak Ave" ++
          "\". Please try a more specific address.", emptyDB)) ∧
    (∀ g, envGeo.geocode "456 Oak Ave" = some g →
      (getCurrentLocation envGeo emptyDB uAlice.id = none ∨
        ∃ loc, getCurrentLocation envGeo emptyDB uAlice.id = some loc ∧
          envGeo.route (loc.latitude, loc.longitude) (g.lat, g.lng) = none) →
      ((startTrip envGeo emptyDB uAlice.id "456 Oak Ave" none).2).isSome = true ∧
      (∀ t, (startTrip envGeo emptyDB uAlice.id "456 Oak Ave" none).2 = some t →
        t.status = "active" ∧ t.estimatedArrival = none ∧
        (startTrip envGeo emptyDB uAlice.id "456 Oak Ave" none).1.trips =
          emptyDB.trips ++ [t]) ∧
      handleTripStart envGeo emptyDB (mkTripIntent "456 Oak Ave") uAlice =
        ("Got it! Heading to " ++ g.formattedAddress ++ ".",
          (startTrip envGeo emptyDB uAlice.id "456 Oak Ave" none).1)) :=
  c7_trip_start_degraded envGeo emptyDB uAlice "456 Oak Ave" rfl (by decide)

theorem headMatch_refl (l : List Char) : headMatch l l = true := by
  induction l with
  | nil => rfl
  | cons a t ih => simp [headMatch, ih]

theorem containsSub_self (l : List Char) : containsSub l l = true := by
  cases l with
  | nil => rfl
  | cons a t => simp [containsSub, headMatch_refl]

theorem ciContains_self (s : String) : ciContains s s = true := containsSub_self _

/-- C8 counterexample: with a pre-existing "milkshake" item, adding "milk"
and removing "milk" drops the list from one item to zero instead of
restoring the pre-add count — removal by substring also deletes the other
matching row. -/
theorem c8_roundtrip_counterexample :
    countItems c8after 1 = 0 ∧ countItems c8db 1 = 1 := ⟨rfl, rfl⟩

/-- C8 (amended): removal deletes exactly the case-insensitive substring
matches of one list and completion affects exactly the matching rows not
already completed, each returning the affected count (0 when nothing
matches); add-then-remove by the same (trimmed) content restores the
pre-add item count provided no other item of the list matches it, and a
second removal then affects 0 rows. -/
theorem c8_bulk_removal_roundtrip (env : Env) (db : DB) (lid : Nat) (c : String)
    (q uid : Option String) (hs : env.storageUp = true) (ht : jsTrim c = c)
    (hno : ∀ it ∈ db.listItems, it.listId = lid → ciContains it.content c = false) :
    countItems (removeListItem env (addListItem env db lid c q uid).1 lid c).1 lid =
        countItems db lid ∧
      (removeListItem env (addListItem env db lid c q uid).1 lid c).2 = 1 ∧
      (removeListItem env
          (removeListItem env (addListItem env db lid c q uid).1 lid c).1 lid c).2 = 0 ∧
      (∀ (db' : DB) (l' : Nat) (q' : String),
        (removeListItem env db' l' q').2 = db'.listItems.countP (itemMatches l' q') ∧
        (removeListItem env db' l' q').1.listItems =
          db'.listItems.filter (fun it => !itemMatches l' q' it) ∧
        (markItemComplete env db' l' q').2 = db'.listItems.countP (markMatches l' q')) := by
  have hno' : ∀ it ∈ db.listItems, itemMatches lid c it = false := by
    intro it hit
    unfold itemMatches
    by_cases hl : it.listId = lid
    · simp [hl, hno it hit hl]
    · simp [beq_eq_false_iff_ne.mpr hl]
  have hcnt0 : db.listItems.countP (itemMatches lid c) = 0 :=
    List.countP_eq_zero.mpr (fun a ha => by simp [hno' a ha])
  have hkeep : db.listItems.filter (fun it => !itemMatches lid c it) = db.listItems :=
    List.filter_eq_self.mpr (fun a ha => by simp [hno' a ha])
  have hnew : itemMatches lid c
      { id := db.nextId, listId := lid, content := jsTrim c, quantity := q,
        addedByUserId := uid, isCompleted := false, completedAt := none,
        createdAt := db.nextId } = true := by
    simp [itemMatches, ht, ciContains_self]
  refine ⟨?_, ?_, ?_, ?_⟩
  · simp only [addListItem, removeListItem, hs, if_true, countItems]
    rw [List.filter_append, hkeep]
    simp [hnew]
  · simp only [addListItem, removeListItem, hs, if_true]
    rw [List.countP_append, hcnt0]
    simp [hnew]
  · simp only [addListItem, removeListItem, hs, if_true]
    rw [List.filter_append, hkeep]
    simp only [List.filter_cons, List.filter_nil, hnew, Bool.not_true, Bool.false_eq_true,
      if_false]
    rw [List.append_nil, hcnt0]
  · intro db' l' q'
    simp [removeListItem, markItemComplete, hs]

/-- C8 witness: on the empty store the round trip restores the (zero) item
count. -/
theorem c8_bulk_removal_roundtrip_witness :
    countItems (removeListItem envUp (addListItem envUp emptyDB 1 "milk" none none).1
        1 "milk").1 1 = countItems emptyDB 1 :=
  (c8_bulk_removal_roundtrip envUp emptyDB 1 "milk" none none rfl (by decide)
    (fun it hit => by simp [emptyDB] at hit)).1

theorem findFirstDesc_eq_none_iff {α : Type} {p : α → Bool} {key : α → Nat} {l : List α} :
    findFirstDesc p key l = none ↔ ∀ x ∈ l, p x = false := by
  induction l with
  | nil => simp [findFirstDesc]
  | cons x xs ih =>
    cases hrest : findFirstDesc p key xs with
    | none =>
      have hall := ih.mp hrest
      by_cases hx : p x = true
      · simp [findFirstDesc, hrest, hx, hall]
      · have hxf : p x = false := by revert hx; cases p x <;> simp
        simp [findFirstDesc, hrest, hxf]
        exact hall
    | some c =>
      constructor
      · intro h
        exfalso
        simp only [findFirstDesc, hrest] at h
        by_cases hx : p x = true
        · rw [if_pos hx] at h
          split at h <;> simp at h
        · rw [if_neg hx] at h
          simp at h
      · intro h
        exfalso
        have : findFirstDesc p key xs = none :=
          ih.mpr fun y hy => h y (List.mem_cons_of_mem _ hy)
        rw [this] at hrest
        exact Option.noConfusion hrest

theorem findFirstDesc_spec {α : Type} {p : α → Bool} {key : α → Nat} {l : List α} {r : α}
    (h : findFirstDesc p key l = some r) :
    p r = true ∧ r ∈ l ∧ ∀ x ∈ l, p x = true → key x ≤ key r := by
  induction l generalizing r with
  | nil => simp [findFirstDesc] at h
  | cons x xs ih =>
    simp only [findFirstDesc] at h
    cases hrest : findFirstDesc p key xs with
    | none =>
      rw [hrest] at h
      by_cases hx : p x = true
      · rw [if_pos hx] at h
        simp only [Option.some_inj] at h
        subst h
        refine ⟨hx, List.mem_cons_self x xs, ?_⟩
        intro y hy hpy
        rcases List.mem_cons.mp hy with rfl | hy2
        · exact le_refl _
        · exact absurd hpy (by simp [findFirstDesc_eq_none_iff.mp hrest y hy2])
      · rw [if_neg hx] at h
        exact absurd h (by simp)
    | some c =>
      rw [hrest] at h
      simp only [] at h
      obtain ⟨hpc, hmemc, hmaxc⟩ := ih hrest
      by_cases hx : p x = true
      · rw [if_pos hx] at h
        by_cases hlt : key x < key c
        · rw [if_pos hlt] at h
          simp only [Option.some_inj] at h
          subst h
          refine ⟨hpc, List.mem_cons_of_mem _ hmemc, ?_⟩
          intro y hy hpy
          rcases List.mem_cons.mp hy with rfl | hy2
          · exact le_of_lt hlt
          · exact hmaxc y hy2 hpy
        · rw [if_neg hlt] at h
          simp only [Option.some_inj] at h
          subst h
          refine ⟨hx, List.mem_cons_self _ _, ?_⟩
          intro y hy hpy
          rcases List.mem_cons.mp hy with rfl | hy2
          · exact le_refl _
          · exact le_trans (hmaxc y hy2 hpy) (Nat.le_of_not_lt hlt)
      · rw [if_neg hx] at h
        simp only [Option.some_inj] at h
        subst h
        refine ⟨hpc, List.mem_cons_of_mem _ hmemc, ?_⟩
        intro y hy hpy
        rcases List.mem_cons.mp hy with rfl | hy2
        · exact absurd hpy hx
        · exact hmaxc y hy2 hpy

theorem findFirstDesc_append_last {α : Type} {p : α → Bool} {key : α → Nat} {l : List α}
    {x : α} (hl : ∀ y ∈ l, p y = false) (hx : p x = true) :
    findFirstDesc p key (l ++ [x]) = some x := by
  induction l with
  | nil => simp [findFirstDesc, hx]
  | cons y ys ih =>
    have hrest := ih (fun z hz => hl z (List.mem_cons_of_mem _ hz))
    have hy : p y = false := hl y (List.mem_cons_self _ _)
    simp [findFirstDesc, hrest, hy]

theorem tripPred_false {u : String} {t : TripRow} (h : t.userId = u → t.status ≠ "active") :
    (t.userId == u && t.status == "active") = false := by
  by_cases h1 : t.userId = u
  · have h2 := h h1
    simp [h1, beq_eq_false_iff_ne.mpr h2]
  · simp [beq_eq_false_iff_ne.mpr h1]

theorem map_id_of_eq {α : Type} {l : List α} {f : α → α} (h : ∀ x ∈ l, f x = x) :
    l.map f = l := by
  rw [List.map_congr_left h]
  exact List.map_id l

theorem startTrip_shape (env : Env) (db : DB) (userId addr : String) (lbl : Option String)
    (g : GeocodeResult) (hs : env.storageUp = true) (hg : env.geocode addr = some g) :
    ∃ t, startTrip env db userId addr lbl =
        ({ db with trips := db.trips ++ [t], nextId := db.nextId + 1 }, some t) ∧
      t.id = db.nextId ∧ t.userId = userId ∧ t.status = "active" ∧ t.createdAt = db.nextId ∧
      t.destinationAddress = g.formattedAddress ∧ t.destinationLabel = lbl := by
  cases hcl : getCurrentLocation env db userId with
  | none =>
    refine ⟨tripRowFor db userId lbl g none none, ?_, rfl, rfl, rfl, rfl, rfl, rfl⟩
    simp [startTrip, tripRowFor, hs, hg, hcl]
  | some loc =>
    cases hr : env.route (loc.latitude, loc.longitude) (g.lat, g.lng) with
    | none =>
      refine ⟨tripRowFor db userId lbl g (some loc) none, ?_, rfl, rfl, rfl, rfl, rfl, rfl⟩
      simp [startTrip, tripRowFor, hs, hg, hcl, hr]
    | some d =>
      refine ⟨tripRowFor db userId lbl g (some loc)
        (some (db.now + (d.durationInTraffic : Int) * 1000)), ?_, rfl, rfl, rfl, rfl, rfl, rfl⟩
      simp [startTrip, tripRowFor, hs, hg, hcl, hr]

/-- C9 counterexample: u1 already has an active trip to Work; starting a
second trip and immediately cancelling it cancels only the newest trip, so
the subsequent ETA query does not return the "no active trip" outcome. -/
theorem c9_prior_active_counterexample :
    (handleEtaQuery envGeo c9xafter uAlice).1 ≠ noActiveTripReply := by decide

/-- C9 (amended): provided the user has no other active trip, start
followed by immediate cancel yields the started trip as cancelled with
completedAt stamped, the subsequent ETA query answers the no-active-trip
outcome, and cancelling with no active trip is the fixed no-op reply. -/
theorem c9_start_cancel_roundtrip (env : Env) (db : DB) (user : UserRow) (addr : String)
    (g : GeocodeResult) (hs : env.storageUp = true) (hg : env.geocode addr = some g)
    (hact : ∀ t ∈ db.trips, t.userId = user.id → t.status ≠ "active")
    (hfresh : ∀ t ∈ db.trips, t.id ≠ db.nextId) :
    handleTripCancel env db user = ("You don't have an active trip to cancel.", db) ∧
    ∃ t, startTrip env db user.id addr none = (dbAfterStart db t, some t) ∧
      t.status = "active" ∧ (cancelledAt t db.now).completedAt = some db.now ∧
      handleTripCancel env (dbAfterStart db t) user =
        ("Cancelled trip to " ++ g.formattedAddress ++ ".", dbAfterCancel db t) ∧
      handleEtaQuery env (dbAfterCancel db t) user = (noActiveTripReply, []) := by
  have hpred : ∀ s ∈ db.trips, (s.userId == user.id && s.status == "active") = false :=
    fun s hs' => tripPred_false (fun h1 => hact s hs' h1)
  have hnone : getActiveTrip env db user.id = none := by
    simp [getActiveTrip, hs, findFirstDesc_eq_none_iff.mpr hpred]
  constructor
  · simp [handleTripCancel, hnone]
  · obtain ⟨t, hrun, hid, huid, hstat, hca, hdest, hlbl⟩ :=
      startTrip_shape env db user.id addr none g hs hg
    refine ⟨t, hrun, hstat, rfl, ?_, ?_⟩
    · have hpt : (t.userId == user.id && t.status == "active") = true := by
        simp [huid, hstat]
      have hat2 : getActiveTrip env (dbAfterStart db t) user.id = some t := by
        simp only [getActiveTrip, hs, if_true, dbAfterStart]
        exact findFirstDesc_append_last hpred hpt
      have hany : (db.trips ++ [t]).any (fun s => s.id == t.id) = true :=
        List.any_eq_true.mpr ⟨t, List.mem_append_right _ (List.mem_singleton.mpr rfl),
          by simp⟩
      have hmap : (db.trips ++ [t]).map (fun s =>
          if s.id == t.id then { s with status := "cancelled", completedAt := some db.now }
          else s) = db.trips ++ [cancelledAt t db.now] := by
        rw [List.map_append]
        congr 1
        · apply map_id_of_eq
          intro s hs'
          have hsid : s.id ≠ t.id := by rw [hid]; exact hfresh s hs'
          simp [beq_eq_false_iff_ne.mpr hsid]
        · simp [cancelledAt]
      rw [handleTripCancel, hat2]
      simp only [cancelTrip, dbAfterStart, hs, if_true, hany, hmap, Prod.mk.injEq]
      constructor
      · rw [hlbl, hdest]
        simp [jsOrStr, strFalsy]
      · simp [dbAfterCancel]
    · have hpred3 : ∀ s ∈ db.trips ++ [cancelledAt t db.now],
          (s.userId == user.id && s.status == "active") = false := by
        intro s hs'
        rcases List.mem_append.mp hs' with h1 | h2
        · exact hpred s h1
        · rw [List.mem_singleton.mp h2]
          apply tripPred_false
          intro _
          simp [cancelledAt]
      have hnone3 : getActiveTrip env (dbAfterCancel db t) user.id = none := by
        simp only [getActiveTrip, hs, if_true, dbAfterCancel]
        exact findFirstDesc_eq_none_iff.mpr hpred3
      simp [handleEtaQuery, hnone3]

/-- C9 witness: on the empty store the no-op reply and the start/cancel
round trip hold concretely. -/
theorem c9_start_cancel_roundtrip_witness :
    handleTripCancel envGeo emptyDB uAlice =
      ("You don't have an active trip to cancel.", emptyDB) :=
  (c9_start_cancel_roundtrip envGeo emptyDB uAlice "123 Main St" gMain rfl rfl
    (fun t ht => by simp [emptyDB] at ht) (fun t ht => by simp [emptyDB] at ht)).1

/-- C10: with at least one active trip, getActiveTrip returns an active
trip of the user whose creation stamp is maximal among the user's active
trips, and trip cancellation flips exactly that row (stamping completedAt)
while every other row, in particular any older active trip, is unchanged. -/
theorem c10_newest_active_trip (env : Env) (db : DB) (user : UserRow) (t : TripRow)
    (hs : env.storageUp = true) (hmem : t ∈ db.trips) (huser : t.userId = user.id)
    (hstat : t.status = "active") :
    ∃ t', getActiveTrip env db user.id = some t' ∧ t'.userId = user.id ∧
      t'.status = "active" ∧
      (∀ s ∈ db.trips, s.userId = user.id → s.status = "active" →
        s.createdAt ≤ t'.createdAt) ∧
      handleTripCancel env db user =
        ("Cancelled trip to " ++ jsOrStr t'.destinationLabel t'.destinationAddress ++ ".",
         { db with trips := db.trips.map fun s =>
             if s.id == t'.id then { s with status := "cancelled", completedAt := some db.now }
             else s }) ∧
      (∀ s ∈ db.trips, s.id ≠ t'.id → s ∈ (handleTripCancel env db user).2.trips) := by
  have hne : findFirstDesc (fun s => s.userId == user.id && s.status == "active")
      (fun s => s.createdAt) db.trips ≠ none := by
    intro hn
    have := findFirstDesc_eq_none_iff.mp hn t hmem
    simp [huser, hstat] at this
  obtain ⟨t', ht'⟩ := Option.ne_none_iff_exists'.mp hne
  obtain ⟨hp, hmem', hmax⟩ := findFirstDesc_spec ht'
  rw [Bool.and_eq_true] at hp
  obtain ⟨hp1, hp2⟩ := hp
  have hat : getActiveTrip env db user.id = some t' := by simp [getActiveTrip, hs, ht']
  have hany : db.trips.any (fun s => s.id == t'.id) = true :=
    List.any_eq_true.mpr ⟨t', hmem', by simp⟩
  refine ⟨t', hat, beq_iff_eq.mp hp1, beq_iff_eq.mp hp2, ?_, ?_, ?_⟩
  · intro s hs' h1 h2
    exact hmax s hs' (by simp [h1, h2])
  · rw [handleTripCancel, hat]
    simp [cancelTrip, hs, hany]
  · intro s hs' hsid
    rw [handleTripCancel, hat]
    simp only [cancelTrip, hs, if_true, hany]
    have : (s.id == t'.id) = false := beq_eq_false_iff_ne.mpr hsid
    refine List.mem_map.mpr ⟨s, hs', by simp [this]⟩

/-- C10 witness: with one active trip in the store, getActiveTrip selects
it and cancellation flips it. -/
theorem c10_newest_active_trip_witness :
    ∃ t', getActiveTrip envUp c9xdb uAlice.id = some t' ∧ t'.userId = uAlice.id ∧
      t'.status = "active" ∧
      (∀ s ∈ c9xdb.trips, s.userId = uAlice.id → s.status = "active" →
        s.createdAt ≤ t'.createdAt) ∧
      handleTripCancel envUp c9xdb uAlice =
        ("Cancelled trip to " ++ jsOrStr t'.destinationLabel t'.destinationAddress ++ ".",
         { c9xdb with trips := c9xdb.trips.map fun s =>
             if s.id == t'.id then
               { s with status := "cancelled", completedAt := some c9xdb.now }
             else s }) ∧
      (∀ s ∈ c9xdb.trips, s.id ≠ t'.id → s ∈ (handleTripCancel envUp c9xdb uAlice).2.trips) :=
  c10_newest_active_trip envUp c9xdb uAlice c6trip rfl (by decide) rfl rfl

theorem headMatch_plus_false {l : List Char} (hall : ∀ c ∈ l, isDigitCh c = true) :
    headMatch ['+'] l = false := by
  cases l with
  | nil => rfl
  | cons c cs =>
    have hc := hall c (List.mem_cons_self _ _)
    simp only [headMatch]
    cases hcc : ('+' == c) with
    | false => simp
    | true =>
      have hc2 : c = '+' := (beq_iff_eq.mp hcc).symm
      rw [hc2] at hc
      exact absurd hc (by decide)

theorem formatPhone_plus (l : List Char) (hall : ∀ c ∈ l, isDigitCh c = true) :
    formatPhoneNumber (String.mk ('+' :: l)) =
      (if !headMatch ['1'] l && l.length == 10 then String.mk ('+' :: '1' :: l)
       else if l.length == 11 && headMatch ['1'] l then String.mk ('+' :: l)
       else String.mk ('+' :: l)) := by
  unfold formatPhoneNumber
  have hf : ('+' :: l).filter isDigitCh = l := by
    rw [List.filter_cons]
    have : isDigitCh '+' = false := by decide
    rw [this]
    simp only [Bool.false_eq_true, if_false]
    exact List.filter_eq_self.mpr hall
  simp only [hf]
  rw [headMatch_plus_false hall]
  simp

theorem formatPhoneNumber_idem (s : String) :
    formatPhoneNumber (formatPhoneNumber s) = formatPhoneNumber s := by
  have hall : ∀ c ∈ s.data.filter isDigitCh, isDigitCh c = true :=
    fun c hc => (List.mem_filter.mp hc).2
  by_cases h1 : (!headMatch ['1'] (s.data.filter isDigitCh)
      && (s.data.filter isDigitCh).length == 10) = true
  · have hfs : formatPhoneNumber s = String.mk ('+' :: '1' :: s.data.filter isDigitCh) := by
      unfold formatPhoneNumber
      rw [if_pos h1]
    rw [hfs]
    rw [formatPhone_plus _ (by
      intro c hc
      rcases List.mem_cons.mp hc with rfl | hc2
      · decide
      · exact hall c hc2)]
    rw [Bool.and_eq_true] at h1
    have hlen : (s.data.filter isDigitCh).length = 10 := by simpa using h1.2
    have hm : headMatch ['1'] ('1' :: s.data.filter isDigitCh) = true := by
      simp [headMatch]
    simp [hm, hlen]
  · have h1f : (!headMatch ['1'] (s.data.filter isDigitCh)
        && (s.data.filter isDigitCh).length == 10) = false := by
      revert h1
      cases (!headMatch ['1'] (s.data.filter isDigitCh)
        && (s.data.filter isDigitCh).length == 10) <;> simp
    by_cases h2 : ((s.data.filter isDigitCh).length == 11
        && headMatch ['1'] (s.data.filter isDigitCh)) = true
    · have hfs : formatPhoneNumber s = String.mk ('+' :: s.data.filter isDigitCh) := by
        unfold formatPhoneNumber
        rw [if_neg (by simp [h1f]), if_pos h2]
      rw [hfs, formatPhone_plus _ hall]
      simp [h1f, h2]
    · have h2f : ((s.data.filter isDigitCh).length == 11
          && headMatch ['1'] (s.data.filter isDigitCh)) = false := by
        revert h2
        cases ((s.data.filter isDigitCh).length == 11
          && headMatch ['1'] (s.data.filter isDigitCh)) <;> simp
      have hfs : formatPhoneNumber s = String.mk ('+' :: s.data.filter isDigitCh) := by
        unfold formatPhoneNumber
        rw [if_neg (by simp [h1f]), if_neg (by simp [h2f]),
          if_neg (by simp [headMatch_plus_false hall])]
      rw [hfs, formatPhone_plus _ hall]
      simp [h1f, h2f]


/-- C2: for an inbound message whose (normalised) sender number belongs to
no User, the controller logs the inbound message, sends exactly the fixed
rejection, and never invokes the classification service or the intent
dispatcher. -/
theorem c2_unauthorized_short_circuit (env : Env) (db : DB) (payload : SmsPayload)
    (hs : env.storageUp = true) (htw : env.twilioUp = true)
    (hu : ∀ u ∈ db.users, u.phoneNumber ≠ formatPhoneNumber payload.From) :
    handleIncomingSms env db payload =
      { db := { db with messageLog := db.messageLog ++ [inboundRow payload, rejectionRow env payload] },
        sent := [rejectionSent payload], classifierCalls := 0, dispatchCalls := 0 } := by
  have hfind : db.users.find? (fun u => u.phoneNumber == formatPhoneNumber payload.From)
      = none :=
    List.find?_eq_none.mpr (fun u hu' hb => hu u hu' (beq_iff_eq.mp hb))
  have htr : truncateForSms rejectionBody = rejectionBody := rfl
  simp only [handleIncomingSms, hs, Bool.not_true, Bool.false_eq_true, if_false, hfind,
    sendSms, htw, if_true, htr, inboundRow, rejectionRow, rejectionSent,
    formatPhoneNumber_idem]
  simp [List.append_assoc]

/-- C2 witness: the concrete unauthorized payload against the concrete
whitelist. -/
theorem c2_unauthorized_short_circuit_witness :
    handleIncomingSms envUp c2db c2payload =
      { db := { c2db with
          messageLog := c2db.messageLog ++ [inboundRow c2payload, rejectionRow envUp c2payload] },
        sent := [rejectionSent c2payload], classifierCalls := 0, dispatchCalls := 0 } :=
  c2_unauthorized_short_circuit envUp c2db c2payload rfl rfl (by decide)

theorem appendL1 {a : String} (b : String) (h : a ≠ "") : a ++ b ≠ "" :=
  append_ne_left b h

theorem appendL2 {a : String} (b c : String) (h : a ≠ "") : a ++ b ++ c ≠ "" :=
  append_ne_left _ (append_ne_left _ h)

theorem appendL3 {a : String} (b c d : String) (h : a ≠ "") : a ++ b ++ c ++ d ≠ "" :=
  append_ne_left _ (appendL2 _ _ h)

theorem appendL4 {a : String} (b c d e : String) (h : a ≠ "") :
    a ++ b ++ c ++ d ++ e ≠ "" :=
  append_ne_left _ (appendL3 _ _ _ h)

theorem appendL5 {a : String} (b c d e f : String) (h : a ≠ "") :
    a ++ b ++ c ++ d ++ e ++ f ≠ "" :=
  append_ne_left _ (appendL4 _ _ _ _ h)

theorem appendL6 {a : String} (b c d e f g : String) (h : a ≠ "") :
    a ++ b ++ c ++ d ++ e ++ f ++ g ≠ "" :=
  append_ne_left _ (appendL5 _ _ _ _ _ h)

theorem appendL7 {a : String} (b c d e f g i : String) (h : a ≠ "") :
    a ++ b ++ c ++ d ++ e ++ f ++ g ++ i ≠ "" :=
  append_ne_left _ (appendL6 _ _ _ _ _ _ h)

theorem appendL8 {a : String} (b c d e f g i j : String) (h : a ≠ "") :
    a ++ b ++ c ++ d ++ e ++ f ++ g ++ i ++ j ≠ "" :=
  append_ne_left _ (appendL7 _ _ _ _ _ _ _ h)

theorem formatListForSms_ne (n : String) (items : List ListItemRow) :
    formatListForSms n items ≠ "" := by
  unfold formatListForSms
  split
  · exact append_ne_right _ (by decide)
  · exact truncate_ne (append_ne_left _ (append_ne_right _ (by decide)))

theorem handleListView_ne (env : Env) (db : DB) (i : IntentResult) (u : UserRow) :
    (handleListView env db i u).1 ≠ "" := by
  simp only [handleListView]
  repeat' split
  all_goals first
    | exact ne_of_beq_false rfl
    | exact formatListForSms_ne _ _
    | (refine append_ne_right _ ?_; decide)

theorem handleListAddItem_ok_ne (env : Env) (db : DB) (i : IntentResult) (u : UserRow)
    (r : String × DB) (h : handleListAddItem env db i u = .ok r) : r.1 ≠ "" := by
  simp only [handleListAddItem] at h
  split at h
  · injection h with h2
    subst h2
    exact ne_of_beq_false rfl
  · rcases hg : getList env db u.id i.entities.listName with ⟨db1, o⟩
    rw [hg] at h
    cases o with
    | none =>
      simp only [] at h
      split at h
      · cases hc : getOrCreateGroceryList env db1 u.id with
        | error e =>
          rw [hc] at h
          exact absurd h (by simp)
        | ok p =>
          rcases p with ⟨db2, gl⟩
          rw [hc] at h
          simp only [] at h
          rcases ha : addListItem env db2 gl.id (optStr i.entities.listItem)
              i.entities.quantity (some u.id) with ⟨db3, oi⟩
          rw [ha] at h
          cases oi with
          | none =>
            simp only [] at h
            injection h with h2
            subst h2
            exact ne_of_beq_false rfl
          | some it =>
            simp only [] at h
            injection h with h2
            subst h2
            exact ne_of_beq_false rfl
      · injection h with h2
        subst h2
        exact ne_of_beq_false rfl
    | some list =>
      simp only [] at h
      rcases ha : addListItem env db1 list.id (optStr i.entities.listItem)
          i.entities.quantity (some u.id) with ⟨db2, oi⟩
      rw [ha] at h
      cases oi with
      | none =>
        simp only [] at h
        injection h with h2
        subst h2
        exact ne_of_beq_false rfl
      | some it =>
        simp only [] at h
        injection h with h2
        subst h2
        exact ne_of_beq_false rfl

theorem handleListRemoveItem_ne (env : Env) (db : DB) (i : IntentResult) (u : UserRow) :
    (handleListRemoveItem env db i u).1 ≠ "" := by
  simp only [handleListRemoveItem]
  repeat' split
  all_goals first
    | exact ne_of_beq_false rfl
    | (refine append_ne_right _ ?_; decide)

theorem handleListMarkComplete_ne (env : Env) (db : DB) (i : IntentResult) (u : UserRow) :
    (handleListMarkComplete env db i u).1 ≠ "" := by
  simp only [handleListMarkComplete]
  repeat' split
  all_goals first
    | exact ne_of_beq_false rfl
    | (refine append_ne_right _ ?_; decide)

theorem handleListClear_ne (env : Env) (db : DB) (i : IntentResult) (u : UserRow) :
    (handleListClear env db i u).1 ≠ "" := by
  simp only [handleListClear]
  repeat' split
  all_goals first
    | exact ne_of_beq_false rfl
    | (refine append_ne_right _ ?_; decide)

theorem handleListCreate_ne (env : Env) (db : DB) (i : IntentResult) (u : UserRow) :
    (handleListCreate env db i u).1 ≠ "" := by
  simp only [handleListCreate]
  repeat' split
  all_goals first
    | exact ne_of_beq_false rfl
    | (refine append_ne_right _ ?_; decide)

theorem handleLocationUpdate_ne (env : Env) (db : DB) (i : IntentResult) (u : UserRow) :
    (handleLocationUpdate env db i u).1 ≠ "" := by
  simp only [handleLocationUpdate]
  repeat' split
  all_goals first
    | exact ne_of_beq_false rfl
    | (refine append_ne_right _ ?_; decide)

theorem handleTripStart_ne (env : Env) (db : DB) (i : IntentResult) (u : UserRow) :
    (handleTripStart env db i u).1 ≠ "" := by
  simp only [handleTripStart]
  repeat' split
  all_goals first
    | exact ne_of_beq_false rfl
    | (refine append_ne_right _ ?_; decide)

theorem handleTripCancel_ne (env : Env) (db : DB) (u : UserRow) :
    (handleTripCancel env db u).1 ≠ "" := by
  simp only [handleTripCancel]
  repeat' split
  all_goals first
    | exact ne_of_beq_false rfl
    | (refine append_ne_right _ ?_; decide)

theorem handleLocationQuery_ne (env : Env) (db : DB) (u : UserRow) :
    handleLocationQuery env db u ≠ "" := by
  simp only [handleLocationQuery]
  repeat' split
  all_goals first
    | exact ne_of_beq_false rfl
    | (refine append_ne_right _ ?_; decide)

theorem handleEtaQuery_ne (env : Env) (db : DB) (u : UserRow) :
    (handleEtaQuery env db u).1 ≠ "" := by
  simp only [handleEtaQuery, etaInfoReply]
  repeat' split
  all_goals first
    | exact ne_of_beq_false rfl
    | (refine append_ne_right _ ?_; decide)

theorem handleStatus_ne (env : Env) (u : UserRow) : handleStatus env u ≠ "" := by
  simp only [handleStatus]
  repeat' split
  all_goals first
    | exact ne_of_beq_false rfl
    | (refine append_ne_right _ ?_; decide)

theorem handleUnknown_ne (i : IntentResult) : handleUnknown i ≠ "" :=
  append_ne_left _ (by decide)

set_option maxRecDepth 8000 in
theorem handleHelp_ne : handleHelp ≠ "" := by
  unfold handleHelp formatHelpMessage
  refine truncate_ne ?_
  decide

set_option maxRecDepth 4000 in
/-- C3 counterexample: a contact lookup whose extracted name is a single
blank, against a store holding one contact with an empty stored name,
dispatches to a reply that is the empty string. -/
theorem c3_empty_reply_counterexample :
    (handleIntent envUp c3db c3intent uAlice).1 = "" := by decide

/-- C3 (amended): any handler exception is caught at the dispatcher and
becomes the one fixed apology (independent of the error); every label not
mapped by the switch routes to the fallback handleUnknown, whose reply is
never empty; and the dispatched reply can be empty only for a
contact-lookup intent (a single matched contact whose stored card is
blank). -/
theorem c3_dispatch_boundary (env : Env) (db : DB) (intent : IntentResult)
    (user : UserRow) :
    (∀ e, handleIntentSwitch env db intent user = .error e →
      handleIntent env db intent user = (routerApology, db)) ∧
    (intent.intent ∉ intentLabels →
      handleIntentSwitch env db intent user = .ok (handleUnknown intent, db)) ∧
    handleUnknown intent ≠ "" ∧
    ((handleIntent env db intent user).1 = "" → intent.intent = "contact_lookup") := by
  refine ⟨?_, ?_, handleUnknown_ne intent, ?_⟩
  · intro e he
    simp [handleIntent, he]
  · intro hni
    simp only [intentLabels, List.mem_cons, List.not_mem_nil, or_false, not_or] at hni
    obtain ⟨n1, n2, n3, n4, n5, n6, n7, n8, n9, n10, n11, n12, n13, n14, n15, n16⟩ := hni
    simp only [handleIntentSwitch, beq_eq_false_iff_ne.mpr n1, beq_eq_false_iff_ne.mpr n2,
      beq_eq_false_iff_ne.mpr n3, beq_eq_false_iff_ne.mpr n4, beq_eq_false_iff_ne.mpr n5,
      beq_eq_false_iff_ne.mpr n6, beq_eq_false_iff_ne.mpr n7, beq_eq_false_iff_ne.mpr n8,
      beq_eq_false_iff_ne.mpr n9, beq_eq_false_iff_ne.mpr n10, beq_eq_false_iff_ne.mpr n11,
      beq_eq_false_iff_ne.mpr n12, beq_eq_false_iff_ne.mpr n13, beq_eq_false_iff_ne.mpr n14,
      beq_eq_false_iff_ne.mpr n15, beq_eq_false_iff_ne.mpr n16, Bool.false_eq_true, if_false]
  · intro h0
    by_contra hne
    by_cases h2 : intent.intent = "contact_share"
    · simp [handleIntent, handleIntentSwitch, h2] at h0
      exact absurd h0 (by decide)
    by_cases h3 : intent.intent = "list_view"
    · simp [handleIntent, handleIntentSwitch, h3] at h0
      exact absurd h0 (handleListView_ne env db intent user)
    by_cases h4 : intent.intent = "list_add_item"
    · simp [handleIntent, handleIntentSwitch, h4] at h0
      cases hadd : handleListAddItem env db intent user with
      | ok r =>
        rw [hadd] at h0
        simp only [] at h0
        exact absurd h0 (handleListAddItem_ok_ne env db intent user r hadd)
      | error e =>
        rw [hadd] at h0
        simp only [] at h0
        exact absurd h0 (by decide)
    by_cases h5 : intent.intent = "list_remove_item"
    · simp [handleIntent, handleIntentSwitch, h5] at h0
      exact absurd h0 (handleListRemoveItem_ne env db intent user)
    by_cases h6 : intent.intent = "list_mark_complete"
    · simp [handleIntent, handleIntentSwitch, h6] at h0
      exact absurd h0 (handleListMarkComplete_ne env db intent user)
    by_cases h7 : intent.intent = "list_clear"
    · simp [handleIntent, handleIntentSwitch, h7] at h0
      exact absurd h0 (handleListClear_ne env db intent user)
    by_cases h8 : intent.intent = "list_create"
    · simp [handleIntent, handleIntentSwitch, h8] at h0
      exact absurd h0 (handleListCreate_ne env db intent user)
    by_cases h9 : intent.intent = "list_share"
    · simp [handleIntent, handleIntentSwitch, h9] at h0
      exact absurd h0 (by decide)
    by_cases h10 : intent.intent = "location_update"
    · simp [handleIntent, handleIntentSwitch, h10] at h0
      exact absurd h0 (handleLocationUpdate_ne env db intent user)
    by_cases h11 : intent.intent = "trip_start"
    · simp [handleIntent, handleIntentSwitch, h11] at h0
      exact absurd h0 (handleTripStart_ne env db intent user)
    by_cases h12 : intent.intent = "trip_cancel"
    · simp [handleIntent, handleIntentSwitch, h12] at h0
      exact absurd h0 (handleTripCancel_ne env db user)
    by_cases h13 : intent.intent = "location_query"
    · simp [handleIntent, handleIntentSwitch, h13] at h0
      exact absurd h0 (handleLocationQuery_ne env db user)
    by_cases h14 : intent.intent = "eta_query"
    · simp [handleIntent, handleIntentSwitch, h14] at h0
      exact absurd h0 (handleEtaQuery_ne env db user)
    by_cases h15 : intent.intent = "help"
    · simp [handleIntent, handleIntentSwitch, h15] at h0
      exact absurd h0 handleHelp_ne
    by_cases h16 : intent.intent = "status"
    · simp [handleIntent, handleIntentSwitch, h16] at h0
      exact absurd h0 (handleStatus_ne env user)
    simp only [handleIntent, handleIntentSwitch, beq_eq_false_iff_ne.mpr hne,
      beq_eq_false_iff_ne.mpr h2, beq_eq_false_iff_ne.mpr h3, beq_eq_false_iff_ne.mpr h4,
      beq_eq_false_iff_ne.mpr h5, beq_eq_false_iff_ne.mpr h6, beq_eq_false_iff_ne.mpr h7,
      beq_eq_false_iff_ne.mpr h8, beq_eq_false_iff_ne.mpr h9, beq_eq_false_iff_ne.mpr h10,
      beq_eq_false_iff_ne.mpr h11, beq_eq_false_iff_ne.mpr h12, beq_eq_false_iff_ne.mpr h13,
      beq_eq_false_iff_ne.mpr h14, beq_eq_false_iff_ne.mpr h15, beq_eq_false_iff_ne.mpr h16,
      Bool.false_eq_true, if_false] at h0
    exact absurd h0 (handleUnknown_ne intent)
